import Mathlib

/-!
Verification of the decklink2 timing core (gst-plugins-bad/sys/decklink2).

The development shallowly embeds the scheduling/synchronization core of
`gstdecklink2input.cpp` and `gstdecklink2output.cpp`:

* the drift-compensated time-mapping update (`gst_decklink2_input_update_time_mapping`),
* the capture-side audio offset reconciliation and bounded capture queue
  (`gst_decklink2_input_on_frame_arrived`),
* the playout scheduler (`gst_decklink2_output_schedule_stream`,
  `gst_decklink2_output_schedule_video_internal`,
  `gst_decklink2_output_on_completed`, `gst_decklink2_output_configure`)
  together with its interleaved audio buffer (`GstDecklink2OutputAudioBuffer`).

Conventions of the embedding:

* `GstClockTime`/`guint64`/`gsize` values are modelled as `Nat`.  Every
  subtraction in the modelled source is guarded by the corresponding comparison
  (the code compares before subtracting), so `Nat` truncated subtraction agrees
  with the 64-bit unsigned subtraction of the source on the guarded branches;
  the claims under verification never depend on 64-bit wrap-around.
* `HRESULT` is modelled as `Int`; the source's `gst_decklink2_result (hr)`
  check is `hr == S_OK` (see `gstdecklink2utils.h`).
* Hardware (DeckLink driver) calls are modelled by an environment record that
  supplies their results; device registers that the code itself sets and later
  reads back (scheduled-playback running, device call logs) are carried in the
  state.
-/

namespace DeckLink2

/-- The GStreamer time unit: nanoseconds per second (`GST_SECOND`). -/
def GST_SECOND : Nat := 1000000000

/-- The COM success code `S_OK`. -/
def S_OK : Int := 0

/-- The COM generic failure code `E_FAIL` (signed 32-bit view of 0x80004005). -/
def E_FAIL : Int := -2147467259

/-- The success check `gst_decklink2_result (hr)` from `gstdecklink2utils.h`:
it returns true exactly when `hr == S_OK`. -/
def gst_decklink2_result (hr : Int) : Bool := hr = S_OK

/-- Modelled from the spec: `gst_util_uint64_scale` (GStreamer core, not under
src/) is the 64-bit scaled-integer divide `floor (val * num / denom)` computed
without intermediate overflow. -/
def gst_util_uint64_scale (val num denom : Nat) : Nat := val * num / denom

/-- The affine time mapping `{xbase, b, num, den}` of `GstDeckLink2Input`:
`hostTime = b + (streamTime - xbase) * num / den`. -/
structure TimeMapping where
  xbase : Nat
  b : Nat
  num : Nat
  den : Nat
deriving Repr, DecidableEq

/-- Modelled from the spec: `gst_clock_adjust_with_calibration` (GStreamer
core, not under src/) applies the affine mapping
`hostTime = b + (streamTime - xbase) * num / den` in exact unsigned integer
arithmetic, clamping the result at zero when the stream time is before the
anchor and the offset does not cover the difference. -/
def gst_clock_adjust_with_calibration (internal cinternal cexternal cnum cdenom : Nat) : Nat :=
  let cnum := if cdenom = 0 then 1 else cnum
  let cdenom := if cdenom = 0 then 1 else cdenom
  if cinternal ≤ internal then
    gst_util_uint64_scale (internal - cinternal) cnum cdenom + cexternal
  else
    let d := gst_util_uint64_scale (cinternal - internal) cnum cdenom
    if d < cexternal then cexternal - d else 0

/-- The host time a mapping assigns to a stream time, as the source computes it
via `gst_clock_adjust_with_calibration (NULL, stream_time, xbase, b, num, den)`. -/
def TimeMapping.applyTo (m : TimeMapping) (stream_time : Nat) : Nat :=
  gst_clock_adjust_with_calibration stream_time m.xbase m.b m.num m.den

/-- The state of the input-side clock-drift estimator
(fields of `GstDeckLink2Input` used by `gst_decklink2_input_update_time_mapping`).
`times` stores the (stream time, capture time) pairs of the sliding window. -/
structure InputTimingState where
  fps_n : Nat
  fps_d : Nat
  window_size : Nat
  window_fill : Nat
  window_filled : Bool
  window_skip : Nat
  window_skip_count : Nat
  times : List (Nat × Nat)
  current_time_mapping : TimeMapping
  next_time_mapping : TimeMapping
  next_time_mapping_pending : Bool
deriving Repr, DecidableEq

/-- Modelled from the spec: `gst_calculate_linear_regression` (GStreamer core,
not under src/) performs ordinary least-squares linear regression over the
window of (stream time, capture time) pairs, returning
`(slope numerator, slope denominator, intercept b, xbase)` with `xbase` the
first stream time of the window; the unsigned output cannot represent a
negative slope or intercept, in which case the model reports failure. -/
def gst_calculate_linear_regression (pts : List (Nat × Nat)) :
    Option (Nat × Nat × Nat × Nat) :=
  let n := pts.length
  if n = 0 then none else
  let sx : Nat := (pts.map Prod.fst).sum
  let sy : Nat := (pts.map Prod.snd).sum
  let sxx : Nat := (pts.map (fun p => p.1 * p.1)).sum
  let sxy : Nat := (pts.map (fun p => p.1 * p.2)).sum
  let sNum : Int := (n : Int) * sxy - (sx : Int) * sy
  let sDen : Int := (n : Int) * sxx - (sx : Int) * sx
  if sDen ≤ 0 ∨ sNum < 0 then none
  else
    let xbase : Nat := ((pts.head?).map Prod.fst).getD 0
    let bNum : Int := (sy : Int) * sDen - sNum * ((sx : Int) - (n : Int) * xbase)
    if bNum < 0 then none
    else some (sNum.toNat, sDen.toNat, (bNum / ((n : Int) * sDen)).toNat, xbase)

/-- The per-update jump budget of the dead-band limiter: 5% of one frame
duration, `gst_util_uint64_scale (GST_SECOND / 20, fps_d, fps_n)`
(gstdecklink2input.cpp:1469). -/
def max_diff_budget (fps_n fps_d : Nat) : Nat :=
  gst_util_uint64_scale (GST_SECOND / 20) fps_d fps_n

/-- The window/regression half of `gst_decklink2_input_update_time_mapping`
(gstdecklink2input.cpp:1391-1449): record the sample pair at the current
decimation rate, seed the very first mapping, and recompute the pending
mapping by linear regression once the window has been filled. -/
def update_time_mapping_window (s : InputTimingState)
    (capture_time stream_time : Nat) : InputTimingState :=
  if s.window_skip_count = 0 then
    let times' := s.times.set s.window_fill (stream_time, capture_time)
    let fill1 := s.window_fill + 1
    let skipc1 := if s.window_skip ≤ s.window_skip_count + 1 then 0
      else s.window_skip_count + 1
    let full := s.window_size ≤ fill1
    let fps := (s.fps_n + s.fps_d - 1) / s.fps_d
    let skip1 := if s.window_skip < 4 * fps then s.window_skip * 2 else s.window_skip
    let skip2 := if 4 * fps ≤ skip1 then 4 * fps else skip1
    let fill2 := if full then 0 else fill1
    let filled2 := if full then true else s.window_filled
    let skip3 := if full then skip2 else s.window_skip
    let s' : InputTimingState :=
      { s with times := times', window_fill := fill2, window_filled := filled2,
               window_skip := skip3, window_skip_count := skipc1 }
    let s' :=
      if filled2 = false ∧ fill2 = 1 then
        { s' with current_time_mapping :=
            ⟨stream_time, capture_time, 1, 1⟩, next_time_mapping_pending := false }
      else s'
    if filled2 then
      match gst_calculate_linear_regression times' with
      | some (num, den, b, xbase) =>
        { s' with next_time_mapping := ⟨xbase, b, num, den⟩,
                  next_time_mapping_pending := true }
      | none => s'
    else s'
  else
    { s with window_skip_count :=
        if s.window_skip ≤ s.window_skip_count + 1 then 0
        else s.window_skip_count + 1 }

/-- The dead-band half of `gst_decklink2_input_update_time_mapping`
(gstdecklink2input.cpp:1451-1495): promote the pending mapping when the host
time it computes for the current stream time is within the jump budget of the
current mapping's value, otherwise nudge the current mapping's intercept toward
the pending value by exactly the budget and re-anchor it at the current stream
time, leaving the pending flag set. -/
def update_time_mapping_deadband (s : InputTimingState) (stream_time : Nat) :
    InputTimingState :=
  if s.next_time_mapping_pending then
    let expected := s.current_time_mapping.applyTo stream_time
    let new_calculated := s.next_time_mapping.applyTo stream_time
    let diff := if expected < new_calculated then new_calculated - expected
      else expected - new_calculated
    let max_diff := max_diff_budget s.fps_n s.fps_d
    if max_diff < diff then
      if expected < new_calculated then
        { s with current_time_mapping :=
            { s.current_time_mapping with b := expected + max_diff, xbase := stream_time } }
      else
        { s with current_time_mapping :=
            { s.current_time_mapping with b := expected - max_diff, xbase := stream_time } }
    else
      { s with current_time_mapping := s.next_time_mapping,
               next_time_mapping_pending := false }
  else s

/-- The full `gst_decklink2_input_update_time_mapping`
(gstdecklink2input.cpp:1387-1496). -/
def gst_decklink2_input_update_time_mapping (s : InputTimingState)
    (capture_time stream_time : Nat) : InputTimingState :=
  update_time_mapping_deadband (update_time_mapping_window s capture_time stream_time)
    stream_time

/-- The estimator state right after `gst_decklink2_input_reset_time_mapping`
(gstdecklink2input.cpp:1052-1067) on a freshly allocated (zero-initialized)
object: the reset does not touch the pending flag or the window contents, both
of which are zero-initialized on a fresh object. -/
def initialTimingState (fps_n fps_d : Nat) : InputTimingState :=
  { fps_n := fps_n
    fps_d := fps_d
    window_size := 64
    window_fill := 0
    window_filled := false
    window_skip := 1
    window_skip_count := 0
    times := List.replicate 64 (0, 0)
    current_time_mapping := ⟨0, 0, 1, 1⟩
    next_time_mapping := ⟨0, 0, 1, 1⟩
    next_time_mapping_pending := false }

/-- The host times observed by `gst_decklink2_input_on_frame_arrived`
(gstdecklink2input.cpp:1622-1625): after each update call, the current mapping
applied to that call's stream time.  Inputs are (capture time, stream time)
pairs. -/
def observe_host_times : InputTimingState → List (Nat × Nat) → List Nat
  | _, [] => []
  | s, (ct, st) :: rest =>
    let s' := gst_decklink2_input_update_time_mapping s ct st
    s'.current_time_mapping.applyTo st :: observe_host_times s' rest

/-- The invalid audio offset sentinel `INVALID_AUDIO_OFFSET = (guint64) -1`
(gstdecklink2input.cpp:37). -/
def INVALID_AUDIO_OFFSET : Nat := 2 ^ 64 - 1

/-- One chunk appended to the capture audio adapter: either synthesized
silence or packet data (with the packet's declared offset, the number of
leading samples trimmed away, and the number of samples kept). -/
inductive AudioChunk where
  | silence (samples : Nat)
  | data (declaredOffset trimmed kept : Nat)
deriving Repr, DecidableEq

/-- The state of the capture-side audio offset reconciliation
(fields of `GstDeckLink2Input` used by the audio-packet section of
`gst_decklink2_input_on_frame_arrived`). -/
structure InputAudioState where
  audio_offset : Nat
  next_audio_offset : Nat
  audio_discont : Bool
  adapter : List AudioChunk
  rate : Nat
  bpf : Nat
  current_time_mapping : TimeMapping
deriving Repr, DecidableEq

/-- An arriving hardware audio packet: its sample count, its declared hardware
sample offset (`GetPacketTime` in sample-rate units), and whether the
`GetPacketTime`/`GetBytes` driver calls succeed. -/
structure AudioPacket where
  sample_count : Nat
  packet_time : Nat
  packet_time_ok : Bool
  bytes_ok : Bool
deriving Repr, DecidableEq

/-- The audio-packet section of `gst_decklink2_input_on_frame_arrived`
(gstdecklink2input.cpp:1732-1834): drop audio arriving without a video frame
before any offset is established, seed the absolute offset from the time
mapping on the first packet, then reconcile the packet's declared offset
against `next_audio_offset` — appending, silence-filling, trimming, or
dropping, and advancing the counter accordingly. -/
def process_audio_packet (s : InputAudioState) (frame_present : Bool)
    (p : AudioPacket) : InputAudioState :=
  if s.audio_offset = INVALID_AUDIO_OFFSET ∧ frame_present = false then s
  else if p.sample_count = 0 then s
  else if p.packet_time_ok = false then s
  else if p.bytes_ok = false then s
  else
    let audio_offset := p.packet_time
    let audio_offset_end := audio_offset + p.sample_count
    let s :=
      if s.audio_offset = INVALID_AUDIO_OFFSET then
        let packet_time_in_gst := gst_util_uint64_scale GST_SECOND p.packet_time s.rate
        let audio_pts := s.current_time_mapping.applyTo packet_time_in_gst
        { s with audio_offset := gst_util_uint64_scale audio_pts s.rate GST_SECOND }
      else s
    if s.next_audio_offset = INVALID_AUDIO_OFFSET then
      { s with next_audio_offset := audio_offset_end,
               adapter := s.adapter ++ [.data audio_offset 0 p.sample_count] }
    else if s.next_audio_offset ≠ audio_offset then
      let s := { s with audio_discont := true }
      if audio_offset < s.next_audio_offset then
        let trim := s.next_audio_offset - audio_offset
        if p.sample_count ≤ trim then
          s
        else
          let count := p.sample_count - trim
          { s with next_audio_offset := s.next_audio_offset + count,
                   adapter := s.adapter ++ [.data audio_offset trim count] }
      else
        let diff := audio_offset - s.next_audio_offset
        { s with next_audio_offset := s.next_audio_offset + (p.sample_count + diff),
                 adapter := s.adapter ++
                   [.silence diff, .data audio_offset 0 p.sample_count] }
    else
      { s with next_audio_offset := s.next_audio_offset + p.sample_count,
               adapter := s.adapter ++ [.data audio_offset 0 p.sample_count] }

/-- The eviction loop run before pushing a completed unit to the capture queue
(gstdecklink2input.cpp:1840-1844): pop the head while the queue length exceeds
`buffer_size`. -/
def capture_queue_evict : Nat → List Nat → List Nat
  | _, [] => []
  | buffer_size, x :: t =>
    if buffer_size < (x :: t).length then capture_queue_evict buffer_size t
    else x :: t

/-- The capture-queue push of `gst_decklink2_input_on_frame_arrived`
(gstdecklink2input.cpp:1840-1886): evict, then append the new unit at the
tail. -/
def capture_queue_push (buffer_size : Nat) (q : List Nat) (x : Nat) : List Nat :=
  capture_queue_evict buffer_size q ++ [x]

/-- The interleaved playout audio buffer `GstDecklink2OutputAudioBuffer`
(gstdecklink2output.cpp:357-521).  `buffer` is the byte vector `buffer_`. -/
structure AudioBuffer where
  init_done : Bool
  rate : Nat
  bpf : Nat
  fps_n : Nat
  fps_d : Nat
  buffer : List Nat
  pos : Nat
  video_frame_dup_drop_count : Nat
  dup_drop_sample_offset_end : Nat
  samples_to_drop : Nat
deriving Repr, DecidableEq

/-- The buffer produced by `GstDecklink2OutputAudioBuffer::Init`
(gstdecklink2output.cpp:360-376). -/
def AudioBuffer.mkInit (rate bpf fps_n fps_d : Nat) : AudioBuffer :=
  { init_done := true, rate := rate, bpf := bpf, fps_n := fps_n, fps_d := fps_d,
    buffer := [], pos := 0, video_frame_dup_drop_count := 0,
    dup_drop_sample_offset_end := 0, samples_to_drop := 0 }

/-- The `Deinit` method (gstdecklink2output.cpp:378-382). -/
def AudioBuffer.deinit (ab : AudioBuffer) : AudioBuffer :=
  { ab with buffer := [], init_done := false }

/-- The `Append` method (gstdecklink2output.cpp:384-419): append the bytes,
first consuming any outstanding `samples_to_drop_` debt from the front of the
new data; returns the packet's sample count. -/
def AudioBuffer.append (ab : AudioBuffer) (data : List Nat) : AudioBuffer × Nat :=
  if data.length = 0 ∨ ab.init_done = false then (ab, 0)
  else
    let num_samples := data.length / ab.bpf
    if ab.samples_to_drop ≠ 0 then
      if ab.samples_to_drop ≤ num_samples then
        let actual := num_samples - ab.samples_to_drop
        let bytes_to_drop := ab.samples_to_drop * ab.bpf
        let ab' := { ab with samples_to_drop := 0 }
        if actual = 0 then (ab', num_samples)
        else ({ ab' with buffer := ab'.buffer ++ data.drop bytes_to_drop }, num_samples)
      else ({ ab with samples_to_drop := ab.samples_to_drop - num_samples }, num_samples)
    else ({ ab with buffer := ab.buffer ++ data }, num_samples)

/-- The `PrependSilence` method (gstdecklink2output.cpp:453-480): move the
duplicated-frame sample cursor forward by one frame's worth of samples and
prepend that many silence samples; returns the synthesized sample count. -/
def AudioBuffer.prependSilence (ab : AudioBuffer) : AudioBuffer × Nat :=
  if ab.init_done = false then (ab, 0)
  else
    let cnt := ab.video_frame_dup_drop_count + 1
    let next := gst_util_uint64_scale cnt (ab.fps_d * ab.rate) ab.fps_n
    let num := next - ab.dup_drop_sample_offset_end
    ({ ab with video_frame_dup_drop_count := cnt,
               dup_drop_sample_offset_end := next,
               buffer := List.replicate (num * ab.bpf) 0 ++ ab.buffer }, num)

/-- The sample count reported by `GetSamples`
(gstdecklink2output.cpp:482-492). -/
def AudioBuffer.numSamples (ab : AudioBuffer) : Nat :=
  if ab.init_done = false then 0 else ab.buffer.length / ab.bpf

/-- The `Flush` method (gstdecklink2output.cpp:494-519): drop up to `samples`
sample frames from the front of the buffer and advance the output sample
position by the amount actually flushed. -/
def AudioBuffer.flush (ab : AudioBuffer) (samples : Nat) : AudioBuffer :=
  if samples = 0 ∨ ab.buffer.length = 0 then ab
  else
    let cur_samples := ab.buffer.length / ab.bpf
    if cur_samples ≤ samples then
      { ab with pos := ab.pos + cur_samples, buffer := [] }
    else
      { ab with pos := ab.pos + samples, buffer := ab.buffer.drop (samples * ab.bpf) }

/-- The state of `GstDeckLink2Output` relevant to the playout scheduler,
together with the device-side registers the code itself drives:
`playback_running` is the register behind `IsScheduledPlaybackRunning` /
`StartScheduledPlayback` / `StopScheduledPlayback`; `scheduled_video` logs each
`ScheduleVideoFrame` call as (frame, pts, duration); `start_args` logs each
`StartScheduledPlayback` call as (start time, time scale);
`begin_preroll_calls` / `end_preroll_calls` count the audio preroll calls. -/
structure OutputState where
  configured : Bool
  prerolled : Bool
  duplicating : Bool
  n_prerolled : Nat
  n_preroll_frames : Nat
  min_buffered : Nat
  max_buffered : Nat
  n_frames : Nat
  n_samples : Nat
  pts : Nat
  hw_time : Option Nat
  late_count : Nat
  drop_count : Nat
  underrun_count : Nat
  overrun_count : Nat
  duplicate_count : Nat
  dropped_sample_count : Nat
  silent_sample_count : Nat
  gap_frames : Nat
  fps_n : Nat
  fps_d : Nat
  audio_info_valid : Bool
  audio_rate : Nat
  audio_bpf : Nat
  audio_buf : AudioBuffer
  last_frame : Option Nat
  playback_running : Bool
  scheduled_video : List (Nat × Nat × Nat)
  start_args : List (Nat × Nat)
  begin_preroll_calls : Nat
  end_preroll_calls : Nat
deriving Repr, DecidableEq

/-- The device environment for the playout side: result codes of the DeckLink
driver calls, the buffered counts the device reports, how many audio samples
the device accepts per `ScheduleAudioSamples` call, and the frame `Clone`
operation (`none` models a clone failure). -/
structure OutputEnv where
  running_hr : Int
  buffered_video_hr : Int
  buffered_video : Nat
  buffered_audio_hr : Int
  buffered_audio : Nat
  ref_clock_hr : Int
  hw_now : Nat
  schedule_video_hr : Int
  schedule_audio_hr : Int
  audio_accept : Nat → Nat
  begin_preroll_hr : Int
  end_preroll_hr : Int
  start_hr : Int
  stop_hr : Int
  enable_video_hr : Int
  set_callback_hr : Int
  enable_audio_hr : Int
  clone : Nat → Option Nat

/-- The hardware-clock tail of `gst_decklink2_get_current_level`
(gstdecklink2output.cpp:1398-1412): once prerolled, query the reference clock
and latch `hw_time` on first use. -/
def get_current_level_hw (env : OutputEnv) (s : OutputState) (bv ba : Nat) :
    Int × Nat × Nat × OutputState :=
  if s.prerolled then
    if env.ref_clock_hr ≠ S_OK then (env.ref_clock_hr, bv, ba, s)
    else
      let s := if s.hw_time = none then { s with hw_time := some env.hw_now } else s
      (S_OK, bv, ba, s)
  else (S_OK, bv, ba, s)

/-- The level query `gst_decklink2_get_current_level`
(gstdecklink2output.cpp:1367-1413): read the buffered video count, the
buffered audio count when audio is active, and the hardware clock when
prerolled; returns (hr, buffered video, buffered audio, state). -/
def gst_decklink2_get_current_level (env : OutputEnv) (s : OutputState) :
    Int × Nat × Nat × OutputState :=
  if env.buffered_video_hr ≠ S_OK then (env.buffered_video_hr, 0, 0, s)
  else
    let bv := env.buffered_video
    if 0 < s.n_samples ∧ s.audio_info_valid then
      if env.buffered_audio_hr ≠ S_OK then (env.buffered_audio_hr, bv, 0, s)
      else get_current_level_hw env s bv env.buffered_audio
    else get_current_level_hw env s bv 0

/-- The audio drain loop of `gst_decklink2_output_schedule_video_internal`
(gstdecklink2output.cpp:1499-1513 and 1538-1552): schedule buffered samples and
flush what the device wrote, until the buffer is exhausted or a device call
fails.  When the device accepts zero samples with a success code the source
spins forever; the model runs on fuel that covers every productive run and
stops in that (unreached) case. -/
def drain_audio_loop (env : OutputEnv) : Nat → AudioBuffer → Int × AudioBuffer
  | 0, ab => (S_OK, ab)
  | fuel + 1, ab =>
    let n := ab.numSamples
    if n = 0 then (S_OK, ab)
    else if env.schedule_audio_hr ≠ S_OK then (env.schedule_audio_hr, ab)
    else drain_audio_loop env fuel (ab.flush (env.audio_accept n))

/-- The audio drain loop, with enough fuel for any run in which the device
makes progress (each productive iteration removes at least one byte). -/
def drain_audio (env : OutputEnv) (ab : AudioBuffer) : Int × AudioBuffer :=
  drain_audio_loop env (ab.buffer.length + 1) ab

/-- The preroll tail of `gst_decklink2_output_schedule_video_internal`
(gstdecklink2output.cpp:1487-1536): begin audio preroll before the first
submission's audio, drain audio, count the prerolled frame, and once
`n_preroll_frames` frames are in, end audio preroll and start scheduled
playback with `StartScheduledPlayback (0, GST_SECOND, 1.0)`. -/
def schedule_video_preroll_path (env : OutputEnv) (s : OutputState) :
    Int × OutputState :=
  let pre :=
    if s.n_prerolled = 0 ∧ s.audio_info_valid then
      (env.begin_preroll_hr, { s with begin_preroll_calls := s.begin_preroll_calls + 1 })
    else (S_OK, s)
  if pre.1 ≠ S_OK then pre
  else
    let s := pre.2
    let dr := drain_audio env s.audio_buf
    let s := { s with audio_buf := dr.2 }
    if dr.1 ≠ S_OK then (dr.1, s)
    else
      let s := { s with n_prerolled := s.n_prerolled + 1 }
      if s.n_preroll_frames ≤ s.n_prerolled then
        let fin :=
          if s.audio_info_valid then
            (env.end_preroll_hr, { s with end_preroll_calls := s.end_preroll_calls + 1 })
          else (S_OK, s)
        if fin.1 ≠ S_OK then fin
        else
          let s := { fin.2 with start_args := fin.2.start_args ++ [(0, GST_SECOND)] }
          if env.start_hr ≠ S_OK then (env.start_hr, s)
          else (S_OK, { s with prerolled := true, playback_running := true })
      else (S_OK, s)

/-- The tail of `gst_decklink2_output_schedule_video_internal` after the
`ScheduleVideoFrame` call and the `pts` advance
(gstdecklink2output.cpp:1478-1555): bail out on a scheduling failure,
account the buffered audio samples, then drain audio (through the preroll
path while not yet prerolled). -/
def schedule_video_finish (env : OutputEnv) (s0 : OutputState) :
    Int × OutputState :=
  if env.schedule_video_hr ≠ S_OK then (env.schedule_video_hr, s0)
  else
    let num := s0.audio_buf.numSamples
    let s := { s0 with n_samples := s0.n_samples + num }
    if s.prerolled then
      let dr := drain_audio env s.audio_buf
      let s := { s with audio_buf := dr.2 }
      if dr.1 ≠ S_OK then (dr.1, s) else (S_OK, s)
    else
      schedule_video_preroll_path env s

/-- The submission path `gst_decklink2_output_schedule_video_internal`
(gstdecklink2output.cpp:1415-1556): query the current level, retain the frame
as `last_frame`, schedule it at `pts = gst_util_uint64_scale (n_frames,
fps_d * GST_SECOND, fps_n)` with duration `next_pts - pts`, then run the
audio/preroll tail. -/
def gst_decklink2_output_schedule_video_internal (env : OutputEnv) (frame : Nat)
    (s0 : OutputState) : Int × OutputState :=
  let s := (gst_decklink2_get_current_level env s0).2.2.2
  let s := { s with last_frame := some frame }
  let old_pts := s.pts
  let n' := s.n_frames + 1
  let next_pts := gst_util_uint64_scale n' (s.fps_d * GST_SECOND) s.fps_n
  let dur := next_pts - old_pts
  let s := { s with scheduled_video := s.scheduled_video ++ [(frame, old_pts, dur)],
                    n_frames := n', pts := next_pts }
  schedule_video_finish env s

/-- The public submission entry `gst_decklink2_output_schedule_stream`
(gstdecklink2output.cpp:1558-1644): while scheduled playback is active, query
the level and drop the unit (counting an overrun and the dropped audio
samples) when the buffered video count exceeds `max_buffered`; otherwise
append the audio bytes and submit the frame. -/
def gst_decklink2_output_schedule_stream (env : OutputEnv) (frame : Nat)
    (audio_bytes : List Nat) (s : OutputState) : Int × OutputState :=
  if env.running_hr ≠ S_OK then (env.running_hr, s)
  else if s.playback_running then
    let lvl := gst_decklink2_get_current_level env s
    let s1 := lvl.2.2.2
    if lvl.1 ≠ S_OK then (lvl.1, s1)
    else if s1.max_buffered < lvl.2.1 then
      let s2 := { s1 with overrun_count := s1.overrun_count + 1 }
      let s3 :=
        if 0 < audio_bytes.length ∧ s2.audio_info_valid then
          { s2 with dropped_sample_count :=
              s2.dropped_sample_count + audio_bytes.length / s2.audio_bpf }
        else s2
      (S_OK, s3)
    else
      let s2 := { s1 with audio_buf := (s1.audio_buf.append audio_bytes).1 }
      gst_decklink2_output_schedule_video_internal env frame s2
  else
    let s2 := { s with audio_buf := (s.audio_buf.append audio_bytes).1 }
    gst_decklink2_output_schedule_video_internal env frame s2

/-- The completion result kinds of `BMDOutputFrameCompletionResult`. -/
inductive CompletionResult where
  | completed
  | displayedLate
  | dropped
  | flushed
deriving Repr, DecidableEq

/-- The underrun-recovery loop body of `gst_decklink2_output_on_completed`
(gstdecklink2output.cpp:2332-2343), iterated `gap_frames` times: clone the last
frame (falling back to the original reference when cloning fails), prepend one
frame's worth of silence, resubmit through the normal submission path, and
count the duplicate. -/
def duplicate_once (env : OutputEnv) (s : OutputState) : OutputState :=
  let last := s.last_frame.getD 0
  let copy := (env.clone last).getD last
  let sil := s.audio_buf.prependSilence
  let s1 := { s with audio_buf := sil.1,
                     silent_sample_count := s.silent_sample_count + sil.2 }
  let s2 := (gst_decklink2_output_schedule_video_internal env copy s1).2
  { s2 with duplicate_count := s2.duplicate_count + 1 }

/-- The recovery loop iterated `gap_frames` times. -/
def duplicate_burst (env : OutputEnv) : Nat → OutputState → OutputState
  | 0, s => s
  | k + 1, s => duplicate_burst env k (duplicate_once env s)

/-- The completion callback `gst_decklink2_output_on_completed`
(gstdecklink2output.cpp:2290-2347): count late/dropped results; when a last
frame exists, playback is running and the buffered video count has fallen to
or below `min_buffered`, count an underrun and — unless a recovery burst is
already in flight — run the duplication burst under the `duplicating`
re-entrancy flag. -/
def on_completed_check (env : OutputEnv) (s : OutputState) : OutputState :=
  if s.last_frame = none then s
  else if env.running_hr ≠ S_OK then s
  else if s.playback_running = false then s
  else
    let lvl := gst_decklink2_get_current_level env s
    let s := lvl.2.2.2
    if lvl.1 ≠ S_OK then s
    else if lvl.2.1 ≤ s.min_buffered then
      let s := { s with underrun_count := s.underrun_count + 1 }
      if s.duplicating then s
      else
        let s := { s with duplicating := true }
        let s := duplicate_burst env s.gap_frames s
        { s with duplicating := false }
    else s

/-- The completion callback: count the result kind, then run the underrun
check. -/
def gst_decklink2_output_on_completed (env : OutputEnv) (res : CompletionResult)
    (s : OutputState) : OutputState :=
  let s :=
    match res with
    | .displayedLate => { s with late_count := s.late_count + 1 }
    | .dropped => { s with drop_count := s.drop_count + 1 }
    | _ => s
  on_completed_check env s

/-- The teardown `gst_decklink2_output_stop_internal`
(gstdecklink2output.cpp:1646-1691): release the last frame, stop scheduled
playback, disable the device paths and reset the statistics counters. -/
def gst_decklink2_output_stop_internal (env : OutputEnv) (s : OutputState) :
    Int × OutputState :=
  let s := { s with last_frame := none, playback_running := false }
  (env.stop_hr,
    { s with configured := false, prerolled := false, late_count := 0,
             drop_count := 0, underrun_count := 0, overrun_count := 0,
             duplicate_count := 0, dropped_sample_count := 0,
             silent_sample_count := 0 })

/-- The configuration entry `gst_decklink2_output_configure`
(gstdecklink2output.cpp:2128-2282): stop any previous session, enable the
video (and optionally audio) paths, install the callback, then reset the
counters and compute `gap_frames`.  The profile/level-A/keyer sections only
issue device-configuration calls and are not modelled.  `audio_bytes_per_sample`
is 2 for 16-bit and 4 for 32-bit samples. -/
def gst_decklink2_output_configure (env : OutputEnv)
    (fps_n fps_d n_preroll_frames min_buffered max_buffered
      audio_channels audio_bytes_per_sample : Nat) (s : OutputState) :
    Int × OutputState :=
  let s := if s.configured then (gst_decklink2_output_stop_internal env s).2 else s
  let s := { s with fps_n := fps_n, fps_d := fps_d }
  if env.enable_video_hr ≠ S_OK then (env.enable_video_hr, s)
  else if env.set_callback_hr ≠ S_OK then (env.set_callback_hr, s)
  else
    let s := { s with audio_info_valid := false }
    let au :=
      if 0 < audio_channels then
        if env.enable_audio_hr ≠ S_OK then (env.enable_audio_hr, s)
        else
          let bpf := audio_channels * audio_bytes_per_sample
          (S_OK, { s with audio_info_valid := true, audio_rate := 48000,
                          audio_bpf := bpf,
                          audio_buf := AudioBuffer.mkInit 48000 bpf fps_n fps_d })
      else (S_OK, { s with audio_buf := s.audio_buf.deinit })
    if au.1 ≠ S_OK then au
    else
      (S_OK, { au.2 with
        n_prerolled := 0, n_preroll_frames := n_preroll_frames,
        min_buffered := min_buffered, max_buffered := max_buffered,
        n_frames := 0, n_samples := 0, hw_time := none, configured := true,
        pts := 0, drop_count := 0, late_count := 0, underrun_count := 0,
        overrun_count := 0, duplicate_count := 0, dropped_sample_count := 0,
        silent_sample_count := 0,
        gap_frames :=
          if min_buffered < max_buffered ∧ 2 ≤ (max_buffered - min_buffered) / 2
          then 2 else 1,
        duplicating := false })

/-- Repeated submission through `gst_decklink2_output_schedule_video_internal`
with a fixed environment (frame ids 0). -/
def iterate_schedule_video (env : OutputEnv) : Nat → OutputState → OutputState
  | 0, s => s
  | k + 1, s =>
    iterate_schedule_video env k
      (gst_decklink2_output_schedule_video_internal env 0 s).2

/-- Repeated submission through `gst_decklink2_output_schedule_stream` with a
fixed environment and per-call audio payload (frame ids 0). -/
def iterate_schedule_stream (env : OutputEnv) (audio_bytes : List Nat) :
    Nat → OutputState → OutputState
  | 0, s => s
  | k + 1, s =>
    iterate_schedule_stream env audio_bytes k
      (gst_decklink2_output_schedule_stream env 0 audio_bytes s).2

/-! Helper lemmas and claim theorems. -/

/-- The eviction loop drops exactly the oldest `q.length - buffer_size`
entries. -/
theorem capture_queue_evict_eq_drop (buffer_size : Nat) (q : List Nat) :
    capture_queue_evict buffer_size q = q.drop (q.length - buffer_size) := by
  induction q with
  | nil => simp [capture_queue_evict]
  | cons a t ih =>
    by_cases h : buffer_size < (a :: t).length
    · have hk : (a :: t).length - buffer_size = (t.length - buffer_size) + 1 := by
        simp only [List.length_cons] at h ⊢
        omega
      simp only [capture_queue_evict, if_pos h, ih, hk, List.drop_succ_cons]
    · have hk : (a :: t).length - buffer_size = 0 := by
        simp only [List.length_cons] at h ⊢
        omega
      simp only [capture_queue_evict, if_neg h, hk, List.drop_zero]

/-- C10: an audio packet arriving in a callback with no video frame, before
any audio offset has been established, is discarded entirely: the adapter,
the audio offset and the next-expected-sample-offset counter are all left
untouched (gstdecklink2input.cpp:1740-1743). -/
theorem c10_audio_without_video_dropped (s : InputAudioState) (p : AudioPacket)
    (h : s.audio_offset = INVALID_AUDIO_OFFSET) :
    process_audio_packet s false p = s := by
  simp [process_audio_packet, h]

/-- Witness for C10 at a concrete pre-seed state and packet. -/
theorem c10_audio_without_video_dropped_witness :
    process_audio_packet
      ⟨INVALID_AUDIO_OFFSET, INVALID_AUDIO_OFFSET, false, [], 48000, 4, ⟨0, 0, 1, 1⟩⟩
      false ⟨480, 960, true, true⟩ =
      ⟨INVALID_AUDIO_OFFSET, INVALID_AUDIO_OFFSET, false, [], 48000, 4, ⟨0, 0, 1, 1⟩⟩ :=
  c10_audio_without_video_dropped _ _ rfl

/-- C9 counterexample: with capacity 2 and a queue already holding exactly 2
units, the push at gstdecklink2input.cpp:1840-1886 evicts nothing (the loop
only pops while the length strictly exceeds `buffer_size`), so after the push
the queue holds 3 > 2 units, contradicting the claimed at-capacity eviction
and the claimed post-push bound. -/
theorem c9_counterexample :
    capture_queue_push 2 [1, 2] 3 = [1, 2, 3] ∧
    2 < (capture_queue_push 2 [1, 2] 3).length ∧
    capture_queue_push 2 [1, 2] 3 ≠ [2, 3] := by
  refine ⟨by decide, by decide, by decide⟩

/-- C9 amended: the push evicts the oldest entries only while the queue length
exceeds `buffer_size`, so a push to a queue of at most `buffer_size` entries
evicts nothing and the queue length after any push is at most
`buffer_size + 1` (not `buffer_size`). -/
theorem c9_amended_bounded_queue (buffer_size : Nat) (q : List Nat) (x : Nat) :
    capture_queue_push buffer_size q x = q.drop (q.length - buffer_size) ++ [x] ∧
    (capture_queue_push buffer_size q x).length ≤ buffer_size + 1 := by
  have h := capture_queue_evict_eq_drop buffer_size q
  constructor
  · simp [capture_queue_push, h]
  · simp only [capture_queue_push, h, List.length_append, List.length_drop,
      List.length_cons, List.length_nil]
    omega

/-- C6: the audio offset reconciliation of `gst_decklink2_input_on_frame_arrived`
(gstdecklink2input.cpp:1793-1833).  For a packet after the first (both offsets
established): an on-time packet is appended whole and the counter advances by
its sample count; a packet ahead of the expectation gets exactly the gap's
worth of silence prepended and the counter becomes declared offset plus sample
count; a packet behind the expectation is trimmed by the overlap (the counter
advancing by the kept samples), and is dropped entirely, without advancing the
counter, when the whole packet is behind. -/
theorem c6_audio_offset_reconciliation (s : InputAudioState) (fp : Bool)
    (p : AudioPacket)
    (hoff : s.audio_offset ≠ INVALID_AUDIO_OFFSET)
    (hnext : s.next_audio_offset ≠ INVALID_AUDIO_OFFSET)
    (hsc : 0 < p.sample_count)
    (ht : p.packet_time_ok = true) (hb : p.bytes_ok = true) :
    (p.packet_time = s.next_audio_offset →
      (process_audio_packet s fp p).adapter =
        s.adapter ++ [.data p.packet_time 0 p.sample_count] ∧
      (process_audio_packet s fp p).next_audio_offset =
        s.next_audio_offset + p.sample_count) ∧
    (s.next_audio_offset < p.packet_time →
      (process_audio_packet s fp p).adapter =
        s.adapter ++ [.silence (p.packet_time - s.next_audio_offset),
                      .data p.packet_time 0 p.sample_count] ∧
      (process_audio_packet s fp p).next_audio_offset =
        p.packet_time + p.sample_count) ∧
    (p.packet_time < s.next_audio_offset ∧
        s.next_audio_offset - p.packet_time < p.sample_count →
      (process_audio_packet s fp p).adapter =
        s.adapter ++ [.data p.packet_time (s.next_audio_offset - p.packet_time)
          (p.sample_count - (s.next_audio_offset - p.packet_time))] ∧
      (process_audio_packet s fp p).next_audio_offset =
        s.next_audio_offset + (p.sample_count - (s.next_audio_offset - p.packet_time))) ∧
    (p.packet_time < s.next_audio_offset ∧
        p.sample_count ≤ s.next_audio_offset - p.packet_time →
      (process_audio_packet s fp p).adapter = s.adapter ∧
      (process_audio_packet s fp p).next_audio_offset = s.next_audio_offset) := by
  have hsc' : ¬ p.sample_count = 0 := Nat.pos_iff_ne_zero.mp hsc
  refine ⟨fun hc => ?_, fun hc => ?_, fun hc => ?_, fun hc => ?_⟩
  · simp [process_audio_packet, hoff, hnext, ht, hb, hsc', hc]
  · have hne : ¬ s.next_audio_offset = p.packet_time := Nat.ne_of_lt hc
    have hnl : ¬ p.packet_time < s.next_audio_offset := Nat.lt_asymm hc
    have harith : s.next_audio_offset + (p.sample_count +
        (p.packet_time - s.next_audio_offset)) = p.packet_time + p.sample_count := by
      omega
    simp [process_audio_packet, hoff, hnext, ht, hb, hsc', hne, hnl, harith]
  · have hne : ¬ s.next_audio_offset = p.packet_time := (Nat.ne_of_lt hc.1).symm
    have hnle : ¬ p.sample_count ≤ s.next_audio_offset - p.packet_time :=
      Nat.not_le.mpr hc.2
    simp [process_audio_packet, hoff, hnext, ht, hb, hsc', hne, hnle, hc.1]
  · have hne : ¬ s.next_audio_offset = p.packet_time := (Nat.ne_of_lt hc.1).symm
    simp [process_audio_packet, hoff, hnext, ht, hb, hsc', hne, hc.1, hc.2]

/-- Witness for C6 at the spec's scenario C: a packet declaring offset 1000
with 50 samples while 900 is expected yields 100 silence samples before the
packet and a counter of 1050. -/
theorem c6_audio_offset_reconciliation_witness :
    (process_audio_packet ⟨0, 900, false, [], 48000, 4, ⟨0, 0, 1, 1⟩⟩ true
        ⟨50, 1000, true, true⟩).adapter =
      [.silence 100, .data 1000 0 50] ∧
    (process_audio_packet ⟨0, 900, false, [], 48000, 4, ⟨0, 0, 1, 1⟩⟩ true
        ⟨50, 1000, true, true⟩).next_audio_offset = 1050 := by
  have h := (c6_audio_offset_reconciliation
      ⟨0, 900, false, [], 48000, 4, ⟨0, 0, 1, 1⟩⟩ true ⟨50, 1000, true, true⟩
      (by decide) (by decide) (by decide) rfl rfl).2.1 (by decide)
  simpa using h

/-- The mapping value at its own anchor point is its intercept. -/
theorem applyTo_self_xbase (b num den t : Nat) :
    TimeMapping.applyTo ⟨t, b, num, den⟩ t = b := by
  simp [TimeMapping.applyTo, gst_clock_adjust_with_calibration, gst_util_uint64_scale]

/-- The jump budget is at most 5% of the exact frame duration:
`20 * fps_n * max_diff ≤ GST_SECOND * fps_d`. -/
theorem max_diff_budget_le (fps_n fps_d : Nat) :
    20 * fps_n * max_diff_budget fps_n fps_d ≤ GST_SECOND * fps_d := by
  have h : max_diff_budget fps_n fps_d * fps_n ≤ GST_SECOND / 20 * fps_d :=
    Nat.div_mul_le_self _ _
  calc 20 * fps_n * max_diff_budget fps_n fps_d
      = 20 * (max_diff_budget fps_n fps_d * fps_n) := by ring
    _ ≤ 20 * (GST_SECOND / 20 * fps_d) := Nat.mul_le_mul_left _ h
    _ = GST_SECOND * fps_d := by norm_num [GST_SECOND]; ring

/-- C1: the dead-band jump budget of `gst_decklink2_input_update_time_mapping`
(gstdecklink2input.cpp:1451-1495).  On a call whose promotion check runs with
a pending mapping: when the pending and current mappings disagree at the
current stream time by more than `max_diff = (GST_SECOND/20) * fps_d / fps_n`,
the current mapping keeps its slope, its intercept becomes the current value
plus-or-minus `max_diff` (moved toward the pending value), its anchor is moved
to the current stream time and the pending flag stays set, so the host time at
that stream time moves by at most 5% of a frame duration
(`20 * fps_n * |after - before| ≤ GST_SECOND * fps_d`); when the disagreement
is within budget the pending mapping is copied into current and the pending
flag is cleared. -/
theorem c1_dead_band_jump_budget (s0 s : InputTimingState) (ct st : Nat)
    (hpend : s.next_time_mapping_pending = true) :
    gst_decklink2_input_update_time_mapping s0 ct st =
      update_time_mapping_deadband (update_time_mapping_window s0 ct st) st ∧
    (max_diff_budget s.fps_n s.fps_d <
        (if s.current_time_mapping.applyTo st < s.next_time_mapping.applyTo st
         then s.next_time_mapping.applyTo st - s.current_time_mapping.applyTo st
         else s.current_time_mapping.applyTo st - s.next_time_mapping.applyTo st) →
      (update_time_mapping_deadband s st).current_time_mapping.num =
        s.current_time_mapping.num ∧
      (update_time_mapping_deadband s st).current_time_mapping.den =
        s.current_time_mapping.den ∧
      (update_time_mapping_deadband s st).current_time_mapping.b =
        (if s.current_time_mapping.applyTo st < s.next_time_mapping.applyTo st
         then s.current_time_mapping.applyTo st + max_diff_budget s.fps_n s.fps_d
         else s.current_time_mapping.applyTo st - max_diff_budget s.fps_n s.fps_d) ∧
      (update_time_mapping_deadband s st).current_time_mapping.xbase = st ∧
      (update_time_mapping_deadband s st).next_time_mapping_pending = true ∧
      (update_time_mapping_deadband s st).next_time_mapping = s.next_time_mapping ∧
      20 * s.fps_n *
        (if s.current_time_mapping.applyTo st <
            (update_time_mapping_deadband s st).current_time_mapping.applyTo st
         then (update_time_mapping_deadband s st).current_time_mapping.applyTo st -
              s.current_time_mapping.applyTo st
         else s.current_time_mapping.applyTo st -
              (update_time_mapping_deadband s st).current_time_mapping.applyTo st) ≤
        GST_SECOND * s.fps_d) ∧
    ((if s.current_time_mapping.applyTo st < s.next_time_mapping.applyTo st
      then s.next_time_mapping.applyTo st - s.current_time_mapping.applyTo st
      else s.current_time_mapping.applyTo st - s.next_time_mapping.applyTo st) ≤
        max_diff_budget s.fps_n s.fps_d →
      (update_time_mapping_deadband s st).current_time_mapping = s.next_time_mapping ∧
      (update_time_mapping_deadband s st).next_time_mapping_pending = false) := by
  refine ⟨rfl, fun hgt => ?_, fun hle => ?_⟩
  · unfold update_time_mapping_deadband
    simp only [hpend, if_true, ite_true]
    rw [if_pos hgt]
    by_cases hdir : s.current_time_mapping.applyTo st < s.next_time_mapping.applyTo st
    · simp only [if_pos hdir, applyTo_self_xbase, hpend]
      refine ⟨trivial, trivial, trivial, trivial, trivial, trivial, ?_⟩
      have hval : (if s.current_time_mapping.applyTo st <
            s.current_time_mapping.applyTo st + max_diff_budget s.fps_n s.fps_d
          then s.current_time_mapping.applyTo st + max_diff_budget s.fps_n s.fps_d -
            s.current_time_mapping.applyTo st
          else s.current_time_mapping.applyTo st -
            (s.current_time_mapping.applyTo st + max_diff_budget s.fps_n s.fps_d)) ≤
          max_diff_budget s.fps_n s.fps_d := by
        split_ifs <;> omega
      calc 20 * s.fps_n * _ ≤ 20 * s.fps_n * max_diff_budget s.fps_n s.fps_d :=
            Nat.mul_le_mul_left _ hval
        _ ≤ GST_SECOND * s.fps_d := max_diff_budget_le _ _
    · simp only [if_neg hdir, applyTo_self_xbase, hpend]
      refine ⟨trivial, trivial, trivial, trivial, trivial, trivial, ?_⟩
      have hval : (if s.current_time_mapping.applyTo st <
            s.current_time_mapping.applyTo st - max_diff_budget s.fps_n s.fps_d
          then s.current_time_mapping.applyTo st - max_diff_budget s.fps_n s.fps_d -
            s.current_time_mapping.applyTo st
          else s.current_time_mapping.applyTo st -
            (s.current_time_mapping.applyTo st - max_diff_budget s.fps_n s.fps_d)) ≤
          max_diff_budget s.fps_n s.fps_d := by
        split_ifs <;> omega
      calc 20 * s.fps_n * _ ≤ 20 * s.fps_n * max_diff_budget s.fps_n s.fps_d :=
            Nat.mul_le_mul_left _ hval
        _ ≤ GST_SECOND * s.fps_d := max_diff_budget_le _ _
  · unfold update_time_mapping_deadband
    simp only [hpend, if_true, ite_true]
    rw [if_neg (Nat.not_lt.mpr hle)]
    exact ⟨rfl, rfl⟩

/-- Concrete estimator state for the C1 witness: window filled, decimation
skipping this call, and a pending mapping one second above the current one. -/
def c1State : InputTimingState :=
  { fps_n := 30, fps_d := 1, window_size := 64, window_fill := 3,
    window_filled := true, window_skip := 4, window_skip_count := 1,
    times := List.replicate 64 (0, 0),
    current_time_mapping := ⟨0, 0, 1, 1⟩,
    next_time_mapping := ⟨0, 1000000000, 1, 1⟩,
    next_time_mapping_pending := true }

/-- Witness for C1: at `c1State` the pending mapping is 10^9 ns away, far over
the 1666666 ns budget of 30 fps, so the intercept moves up by exactly the
budget, the anchor moves to the stream time, and the pending flag stays set. -/
theorem c1_dead_band_jump_budget_witness :
    (update_time_mapping_deadband c1State 0).current_time_mapping.b = 1666666 ∧
    (update_time_mapping_deadband c1State 0).current_time_mapping.xbase = 0 ∧
    (update_time_mapping_deadband c1State 0).next_time_mapping_pending = true := by
  have h := (c1_dead_band_jump_budget (initialTimingState 30 1) c1State 0 0 rfl).2.1
    (by decide)
  exact ⟨by rw [h.2.2.1]; decide, h.2.2.2.1, h.2.2.2.2.1⟩

/-- The executable strict-increase check used to state C2. -/
def strictlyIncreasingB : List Nat → Bool
  | [] => true
  | [_] => true
  | a :: b :: t => decide (a < b) && strictlyIncreasingB (b :: t)

/-- The executable non-decrease check used to state C2. -/
def nondecreasingB : List Nat → Bool
  | [] => true
  | [_] => true
  | a :: b :: t => decide (a ≤ b) && nondecreasingB (b :: t)

/-- The C2 counterexample input run: 64 frame-spaced stream times at 30 fps
with a constant capture time (host clock), filling the window and producing a
pending regression mapping far below the seeded identity mapping, followed by
one call whose stream time advances by a single nanosecond. -/
def c2Inputs : List (Nat × Nat) :=
  ((List.range 64).map (fun i => ((0 : Nat), i * 33333333))) ++
    [(0, 63 * 33333333 + 1)]

/-- C2 counterexample: the stream times of `c2Inputs` are strictly increasing,
yet the host times `gst_decklink2_input_on_frame_arrived` computes after each
update call are not non-decreasing: call 63 yields 2098333313 but call 64,
whose pending mapping is rejected and whose current intercept is nudged
downward by the full budget while the stream time advanced by only 1 ns,
yields 2096666648. -/
theorem c2_counterexample :
    strictlyIncreasingB (c2Inputs.map Prod.snd) = true ∧
    nondecreasingB (observe_host_times (initialTimingState 30 1) c2Inputs) = false ∧
    (observe_host_times (initialTimingState 30 1) c2Inputs).get? 63 =
      some 2098333313 ∧
    (observe_host_times (initialTimingState 30 1) c2Inputs).get? 64 =
      some 2096666648 := by
  exact ⟨by decide, by decide, by decide, by decide⟩

/-- A non-seeding call to the window half (here: once the window has filled)
leaves the current mapping and the frame rate untouched. -/
theorem update_window_keeps_current (s : InputTimingState) (ct st : Nat)
    (hfilled : s.window_filled = true) :
    (update_time_mapping_window s ct st).current_time_mapping =
      s.current_time_mapping ∧
    (update_time_mapping_window s ct st).fps_n = s.fps_n ∧
    (update_time_mapping_window s ct st).fps_d = s.fps_d := by
  unfold update_time_mapping_window
  by_cases hrec : s.window_skip_count = 0
  · simp only [hrec, if_true, ite_true]
    have hseed : ¬ ((if s.window_size ≤ s.window_fill + 1 then true
        else s.window_filled) = false ∧
        (if s.window_size ≤ s.window_fill + 1 then 0 else s.window_fill + 1) = 1) := by
      by_cases hfull : s.window_size ≤ s.window_fill + 1 <;> simp [hfull, hfilled]
    rw [if_neg hseed]
    cases hreg : gst_calculate_linear_regression
        (s.times.set s.window_fill (st, ct)) with
    | none => split <;> simp
    | some v =>
      obtain ⟨num, den, b, xbase⟩ := v
      split <;> simp
  · simp [hrec]

/-- After the dead-band stage, the host time at the current stream time is
below the pre-stage value by at most the jump budget, whatever the pending
mapping is. -/
theorem deadband_applyTo_lower_bound (s : InputTimingState) (st : Nat) :
    s.current_time_mapping.applyTo st ≤
      (update_time_mapping_deadband s st).current_time_mapping.applyTo st +
        max_diff_budget s.fps_n s.fps_d := by
  unfold update_time_mapping_deadband
  by_cases hpend : s.next_time_mapping_pending = true
  · simp only [hpend, if_true, ite_true]
    by_cases hgt : max_diff_budget s.fps_n s.fps_d <
        (if s.current_time_mapping.applyTo st < s.next_time_mapping.applyTo st
         then s.next_time_mapping.applyTo st - s.current_time_mapping.applyTo st
         else s.current_time_mapping.applyTo st - s.next_time_mapping.applyTo st)
    · rw [if_pos hgt]
      by_cases hdir : s.current_time_mapping.applyTo st <
          s.next_time_mapping.applyTo st
      · rw [if_pos hdir]
        simp only [applyTo_self_xbase]
        omega
      · rw [if_neg hdir]
        simp only [applyTo_self_xbase]
        omega
    · rw [if_neg hgt]
      have hle := Nat.not_lt.mp hgt
      dsimp only
      by_cases hdir : s.current_time_mapping.applyTo st <
          s.next_time_mapping.applyTo st
      · rw [if_pos hdir] at hle
        omega
      · rw [if_neg hdir] at hle
        omega
  · simp only [hpend]
    simp


/-- C2 amended: across consecutive update calls after the window has filled,
the host time can move backwards by at most the jump budget: whenever the
current mapping's host-time increment between the previous and the current
stream time is at least `max_diff`, the observed host time is non-decreasing;
with smaller stream-time increments a downward nudge of up to `max_diff` is
possible, as the counterexample exhibits. -/
theorem c2_amended_bounded_backjump (s : InputTimingState) (ct t1 t2 : Nat)
    (hfilled : s.window_filled = true)
    (hgap : s.current_time_mapping.applyTo t1 + max_diff_budget s.fps_n s.fps_d ≤
            s.current_time_mapping.applyTo t2) :
    s.current_time_mapping.applyTo t1 ≤
      (gst_decklink2_input_update_time_mapping s ct t2).current_time_mapping.applyTo t2 := by
  have hw := update_window_keeps_current s ct t2 hfilled
  have hb := deadband_applyTo_lower_bound (update_time_mapping_window s ct t2) t2
  rw [hw.1, hw.2.1, hw.2.2] at hb
  have hdef : gst_decklink2_input_update_time_mapping s ct t2 =
      update_time_mapping_deadband (update_time_mapping_window s ct t2) t2 := rfl
  rw [hdef]
  omega

/-- Concrete estimator state for the C2 amended witness. -/
def c2WitnessState : InputTimingState :=
  { fps_n := 30, fps_d := 1, window_size := 64, window_fill := 5,
    window_filled := true, window_skip := 8, window_skip_count := 3,
    times := List.replicate 64 (0, 0),
    current_time_mapping := ⟨0, 0, 1, 1⟩,
    next_time_mapping := ⟨0, 500000000, 1, 1⟩,
    next_time_mapping_pending := true }

/-- Witness for the C2 amended theorem at a concrete state and stream times a
full frame apart. -/
theorem c2_amended_bounded_backjump_witness :
    c2WitnessState.window_filled = true ∧
    c2WitnessState.current_time_mapping.applyTo 0 +
        max_diff_budget c2WitnessState.fps_n c2WitnessState.fps_d ≤
      c2WitnessState.current_time_mapping.applyTo 33333333 ∧
    c2WitnessState.current_time_mapping.applyTo 0 ≤
      (gst_decklink2_input_update_time_mapping c2WitnessState 7 33333333).current_time_mapping.applyTo
        33333333 :=
  ⟨rfl, by decide, c2_amended_bounded_backjump c2WitnessState 7 0 33333333 rfl (by decide)⟩

/-- The level query touches no state other than latching `hw_time`. -/
theorem get_current_level_state (env : OutputEnv) (s : OutputState) :
    ∃ hw, (gst_decklink2_get_current_level env s).2.2.2 = { s with hw_time := hw } := by
  unfold gst_decklink2_get_current_level get_current_level_hw
  split_ifs <;> exact ⟨_, rfl⟩

/-- When the underlying device queries succeed, the level query returns `S_OK`
and reports the device's buffered video count. -/
theorem get_current_level_hr_ok (env : OutputEnv) (s : OutputState)
    (h1 : env.buffered_video_hr = S_OK) (h2 : env.buffered_audio_hr = S_OK)
    (h3 : env.ref_clock_hr = S_OK) :
    (gst_decklink2_get_current_level env s).1 = S_OK ∧
    (gst_decklink2_get_current_level env s).2.1 = env.buffered_video := by
  unfold gst_decklink2_get_current_level get_current_level_hw
  split_ifs <;> simp_all

/-- C4: the overrun path of `gst_decklink2_output_schedule_stream`
(gstdecklink2output.cpp:1618-1633).  With playback active and the device
reporting strictly more than `max_buffered` buffered frames, the call returns
`S_OK` without scheduling the frame and without appending the audio bytes,
increments `overrun_count` by exactly one, adds `audio_buf_size / bpf` to
`dropped_sample_count` exactly when audio bytes were passed and audio is
configured, and leaves every other counter and the frame counter unchanged. -/
theorem c4_overrun_never_blocks (env : OutputEnv) (frame : Nat)
    (audio_bytes : List Nat) (s : OutputState)
    (hrun : env.running_hr = S_OK)
    (hactive : s.playback_running = true)
    (h1 : env.buffered_video_hr = S_OK) (h2 : env.buffered_audio_hr = S_OK)
    (h3 : env.ref_clock_hr = S_OK)
    (hover : s.max_buffered < env.buffered_video) :
    (gst_decklink2_output_schedule_stream env frame audio_bytes s).1 = S_OK ∧
    (gst_decklink2_output_schedule_stream env frame audio_bytes s).2.overrun_count =
      s.overrun_count + 1 ∧
    (gst_decklink2_output_schedule_stream env frame audio_bytes s).2.dropped_sample_count =
      s.dropped_sample_count +
        (if 0 < audio_bytes.length ∧ s.audio_info_valid = true
         then audio_bytes.length / s.audio_bpf else 0) ∧
    (gst_decklink2_output_schedule_stream env frame audio_bytes s).2.n_frames =
      s.n_frames ∧
    (gst_decklink2_output_schedule_stream env frame audio_bytes s).2.scheduled_video =
      s.scheduled_video ∧
    (gst_decklink2_output_schedule_stream env frame audio_bytes s).2.audio_buf =
      s.audio_buf ∧
    (gst_decklink2_output_schedule_stream env frame audio_bytes s).2.last_frame =
      s.last_frame ∧
    (gst_decklink2_output_schedule_stream env frame audio_bytes s).2.late_count =
      s.late_count ∧
    (gst_decklink2_output_schedule_stream env frame audio_bytes s).2.drop_count =
      s.drop_count ∧
    (gst_decklink2_output_schedule_stream env frame audio_bytes s).2.underrun_count =
      s.underrun_count ∧
    (gst_decklink2_output_schedule_stream env frame audio_bytes s).2.duplicate_count =
      s.duplicate_count ∧
    (gst_decklink2_output_schedule_stream env frame audio_bytes s).2.silent_sample_count =
      s.silent_sample_count ∧
    (gst_decklink2_output_schedule_stream env frame audio_bytes s).2.n_samples =
      s.n_samples := by
  obtain ⟨hw, hhw⟩ := get_current_level_state env s
  obtain ⟨hok, hbv⟩ := get_current_level_hr_ok env s h1 h2 h3
  have hcond : ((gst_decklink2_get_current_level env s).2.2.2).max_buffered <
      (gst_decklink2_get_current_level env s).2.1 := by
    rw [hhw, hbv]
    exact hover
  unfold gst_decklink2_output_schedule_stream
  simp only [hrun, hactive, ne_eq, not_true_eq_false, if_false, ite_false,
    not_false_eq_true, if_true, ite_true, hok, hcond, if_pos]
  rw [hhw]
  by_cases haud : 0 < audio_bytes.length ∧ s.audio_info_valid = true
  · simp [haud]
  · simp [haud]

/-- A fully zero-initialized output object, as freshly allocated. -/
def freshOutputState : OutputState :=
  { configured := false, prerolled := false, duplicating := false,
    n_prerolled := 0, n_preroll_frames := 0, min_buffered := 0, max_buffered := 0,
    n_frames := 0, n_samples := 0, pts := 0, hw_time := none, late_count := 0,
    drop_count := 0, underrun_count := 0, overrun_count := 0, duplicate_count := 0,
    dropped_sample_count := 0, silent_sample_count := 0, gap_frames := 0,
    fps_n := 0, fps_d := 0, audio_info_valid := false, audio_rate := 0,
    audio_bpf := 0, audio_buf := ⟨false, 0, 0, 0, 0, [], 0, 0, 0, 0⟩,
    last_frame := none, playback_running := false, scheduled_video := [],
    start_args := [], begin_preroll_calls := 0, end_preroll_calls := 0 }

/-- A device environment in which every driver call succeeds, the device
reports no buffered frames or samples, accepts all offered audio, and clones
frames successfully. -/
def okEnv : OutputEnv :=
  { running_hr := S_OK, buffered_video_hr := S_OK, buffered_video := 0,
    buffered_audio_hr := S_OK, buffered_audio := 0, ref_clock_hr := S_OK,
    hw_now := 0, schedule_video_hr := S_OK, schedule_audio_hr := S_OK,
    audio_accept := fun n => n, begin_preroll_hr := S_OK, end_preroll_hr := S_OK,
    start_hr := S_OK, stop_hr := S_OK, enable_video_hr := S_OK,
    set_callback_hr := S_OK, enable_audio_hr := S_OK,
    clone := fun f => some (f + 1) }

/-- Environment for the C4 witness: the device reports 5 buffered frames. -/
def c4Env : OutputEnv := { okEnv with buffered_video := 5 }

/-- State for the C4 witness: active playback with `max_buffered = 2` and
16-bit stereo audio configured (`bpf = 4`). -/
def c4State : OutputState :=
  { freshOutputState with
    playback_running := true
    max_buffered := 2
    audio_info_valid := true
    audio_bpf := 4 }

/-- Witness for C4: submitting 8 audio bytes while 5 > 2 frames are buffered
drops the unit, returns `S_OK`, counts one overrun and two dropped samples. -/
theorem c4_overrun_never_blocks_witness :
    (gst_decklink2_output_schedule_stream c4Env 9 (List.replicate 8 0) c4State).1 =
      S_OK ∧
    (gst_decklink2_output_schedule_stream c4Env 9 (List.replicate 8 0) c4State).2.overrun_count = 1 ∧
    (gst_decklink2_output_schedule_stream c4Env 9 (List.replicate 8 0) c4State).2.dropped_sample_count = 2 ∧
    (gst_decklink2_output_schedule_stream c4Env 9 (List.replicate 8 0) c4State).2.n_frames = 0 := by
  have h := c4_overrun_never_blocks c4Env 9 (List.replicate 8 0) c4State rfl rfl
    rfl rfl rfl (by decide)
  exact ⟨h.1, by rw [h.2.1]; decide, by rw [h.2.2.1]; decide,
    by rw [h.2.2.2.1]; decide⟩

/-- C8: a successful `gst_decklink2_output_configure`
(gstdecklink2output.cpp:2250-2273) resets all statistics counters, the frame
and sample counters and the pts to zero, installs the preroll/buffer bounds,
and sets `gap_frames = clamp ((max_buffered - min_buffered) / 2, 1, 2)`, i.e.
2 exactly when `max_buffered > min_buffered` and the halved margin is at least
2, and 1 in every other case. -/
theorem c8_configure_postcondition (env : OutputEnv)
    (fps_n fps_d npre minb maxb ch bps : Nat) (s : OutputState)
    (h1 : env.enable_video_hr = S_OK) (h2 : env.set_callback_hr = S_OK)
    (h3 : env.enable_audio_hr = S_OK) :
    (gst_decklink2_output_configure env fps_n fps_d npre minb maxb ch bps s).1 =
      S_OK ∧
    (gst_decklink2_output_configure env fps_n fps_d npre minb maxb ch bps s).2.late_count = 0 ∧
    (gst_decklink2_output_configure env fps_n fps_d npre minb maxb ch bps s).2.drop_count = 0 ∧
    (gst_decklink2_output_configure env fps_n fps_d npre minb maxb ch bps s).2.underrun_count = 0 ∧
    (gst_decklink2_output_configure env fps_n fps_d npre minb maxb ch bps s).2.overrun_count = 0 ∧
    (gst_decklink2_output_configure env fps_n fps_d npre minb maxb ch bps s).2.duplicate_count = 0 ∧
    (gst_decklink2_output_configure env fps_n fps_d npre minb maxb ch bps s).2.dropped_sample_count = 0 ∧
    (gst_decklink2_output_configure env fps_n fps_d npre minb maxb ch bps s).2.silent_sample_count = 0 ∧
    (gst_decklink2_output_configure env fps_n fps_d npre minb maxb ch bps s).2.n_frames = 0 ∧
    (gst_decklink2_output_configure env fps_n fps_d npre minb maxb ch bps s).2.n_samples = 0 ∧
    (gst_decklink2_output_configure env fps_n fps_d npre minb maxb ch bps s).2.pts = 0 ∧
    (gst_decklink2_output_configure env fps_n fps_d npre minb maxb ch bps s).2.n_prerolled = 0 ∧
    (gst_decklink2_output_configure env fps_n fps_d npre minb maxb ch bps s).2.n_preroll_frames = npre ∧
    (gst_decklink2_output_configure env fps_n fps_d npre minb maxb ch bps s).2.min_buffered = minb ∧
    (gst_decklink2_output_configure env fps_n fps_d npre minb maxb ch bps s).2.max_buffered = maxb ∧
    (gst_decklink2_output_configure env fps_n fps_d npre minb maxb ch bps s).2.configured = true ∧
    (gst_decklink2_output_configure env fps_n fps_d npre minb maxb ch bps s).2.duplicating = false ∧
    (gst_decklink2_output_configure env fps_n fps_d npre minb maxb ch bps s).2.gap_frames =
      (if minb < maxb ∧ 2 ≤ (maxb - minb) / 2 then 2 else 1) ∧
    (gst_decklink2_output_configure env fps_n fps_d npre minb maxb ch bps s).2.gap_frames =
      min (max ((maxb - minb) / 2) 1) 2 := by
  have hclamp : (if minb < maxb ∧ 2 ≤ (maxb - minb) / 2 then 2 else 1) =
      min (max ((maxb - minb) / 2) 1) 2 := by
    split_ifs with h
    · omega
    · rw [Classical.not_and_iff_or_not_not] at h
      rcases h with h | h
      · have hz : maxb - minb = 0 := by omega
        simp [hz]
      · omega
  unfold gst_decklink2_output_configure gst_decklink2_output_stop_internal
  by_cases hc : s.configured <;> by_cases hch : 0 < ch <;> simp_all

/-- Witness for C8 at `configure (fps 30/1, preroll 7, min 3, max 14, stereo)`:
the margin (14-3)/2 = 5 clamps to `gap_frames = 2` and the counters reset. -/
theorem c8_configure_postcondition_witness :
    (gst_decklink2_output_configure okEnv 30 1 7 3 14 2 2 freshOutputState).1 =
      S_OK ∧
    (gst_decklink2_output_configure okEnv 30 1 7 3 14 2 2 freshOutputState).2.gap_frames = 2 ∧
    (gst_decklink2_output_configure okEnv 30 1 7 3 14 2 2 freshOutputState).2.overrun_count = 0 ∧
    (gst_decklink2_output_configure okEnv 30 1 7 3 14 2 2 freshOutputState).2.pts = 0 := by
  have h := c8_configure_postcondition okEnv 30 1 7 3 14 2 2 freshOutputState
    rfl rfl rfl
  exact ⟨h.1, by decide, by decide, by decide⟩

/-- One submission through `gst_decklink2_output_schedule_video_internal`
always schedules the frame at the current `pts` with duration
`next_pts - pts`, where `next_pts = gst_util_uint64_scale (n_frames + 1,
fps_d * GST_SECOND, fps_n)`, and advances `n_frames` and `pts` — whatever the
device returns (gstdecklink2output.cpp:1447-1477). -/
theorem flush_preserves (ab : AudioBuffer) (n : Nat) :
    (ab.flush n).init_done = ab.init_done ∧
    (ab.flush n).video_frame_dup_drop_count = ab.video_frame_dup_drop_count ∧
    (ab.flush n).bpf = ab.bpf ∧
    (ab.flush n).rate = ab.rate ∧
    (ab.flush n).fps_n = ab.fps_n ∧
    (ab.flush n).fps_d = ab.fps_d := by
  unfold AudioBuffer.flush
  dsimp only
  split_ifs <;> exact ⟨rfl, rfl, rfl, rfl, rfl, rfl⟩

theorem drain_audio_loop_preserves (env : OutputEnv) (fuel : Nat) (ab : AudioBuffer) :
    (drain_audio_loop env fuel ab).2.init_done = ab.init_done ∧
    (drain_audio_loop env fuel ab).2.video_frame_dup_drop_count =
      ab.video_frame_dup_drop_count ∧
    (drain_audio_loop env fuel ab).2.bpf = ab.bpf ∧
    (drain_audio_loop env fuel ab).2.rate = ab.rate ∧
    (drain_audio_loop env fuel ab).2.fps_n = ab.fps_n ∧
    (drain_audio_loop env fuel ab).2.fps_d = ab.fps_d := by
  induction fuel generalizing ab with
  | zero => exact ⟨rfl, rfl, rfl, rfl, rfl, rfl⟩
  | succ k ih =>
    unfold drain_audio_loop
    dsimp only
    split_ifs
    · exact ⟨rfl, rfl, rfl, rfl, rfl, rfl⟩
    · exact ⟨rfl, rfl, rfl, rfl, rfl, rfl⟩
    · have h1 := flush_preserves ab (env.audio_accept ab.numSamples)
      have h2 := ih (ab.flush (env.audio_accept ab.numSamples))
      exact ⟨h2.1.trans h1.1, h2.2.1.trans h1.2.1, h2.2.2.1.trans h1.2.2.1,
        h2.2.2.2.1.trans h1.2.2.2.1, h2.2.2.2.2.1.trans h1.2.2.2.2.1,
        h2.2.2.2.2.2.trans h1.2.2.2.2.2⟩

theorem drain_audio_preserves (env : OutputEnv) (ab : AudioBuffer) :
    (drain_audio env ab).2.init_done = ab.init_done ∧
    (drain_audio env ab).2.video_frame_dup_drop_count =
      ab.video_frame_dup_drop_count ∧
    (drain_audio env ab).2.bpf = ab.bpf ∧
    (drain_audio env ab).2.rate = ab.rate ∧
    (drain_audio env ab).2.fps_n = ab.fps_n ∧
    (drain_audio env ab).2.fps_d = ab.fps_d :=
  drain_audio_loop_preserves env (ab.buffer.length + 1) ab

/-- The audio/preroll tail of a submission only touches `n_samples`, the audio
buffer contents (preserving its bookkeeping counters), and the preroll state. -/
theorem schedule_video_finish_shape (env : OutputEnv) (s : OutputState) :
    ∃ ns ab np pr run sa bc ec,
      (schedule_video_finish env s).2 =
        { s with n_samples := ns, audio_buf := ab, n_prerolled := np,
                 prerolled := pr, playback_running := run, start_args := sa,
                 begin_preroll_calls := bc, end_preroll_calls := ec } ∧
      ab.init_done = s.audio_buf.init_done ∧
      ab.video_frame_dup_drop_count = s.audio_buf.video_frame_dup_drop_count ∧
      ab.bpf = s.audio_buf.bpf ∧
      ab.rate = s.audio_buf.rate ∧
      ab.fps_n = s.audio_buf.fps_n ∧
      ab.fps_d = s.audio_buf.fps_d := by
  unfold schedule_video_finish schedule_video_preroll_path
  try dsimp only
  by_cases h1 : env.schedule_video_hr ≠ S_OK
  · rw [if_pos h1]
    exact ⟨s.n_samples, s.audio_buf, s.n_prerolled, s.prerolled,
      s.playback_running, s.start_args, s.begin_preroll_calls,
      s.end_preroll_calls, rfl, rfl, rfl, rfl, rfl, rfl, rfl⟩
  · rw [if_neg h1]
    by_cases h2 : s.prerolled = true
    · rw [if_pos h2]
      try dsimp only
      by_cases h3 : (drain_audio env s.audio_buf).1 ≠ S_OK
      · rw [if_pos h3]
        refine ⟨_, _, _, _, _, _, _, _, rfl, ?_, ?_, ?_, ?_, ?_, ?_⟩ <;>
          first
            | exact (drain_audio_preserves env _).1
            | exact (drain_audio_preserves env _).2.1
            | exact (drain_audio_preserves env _).2.2.1
            | exact (drain_audio_preserves env _).2.2.2.1
            | exact (drain_audio_preserves env _).2.2.2.2.1
            | exact (drain_audio_preserves env _).2.2.2.2.2
      · rw [if_neg h3]
        refine ⟨_, _, _, _, _, _, _, _, rfl, ?_, ?_, ?_, ?_, ?_, ?_⟩ <;>
          first
            | exact (drain_audio_preserves env _).1
            | exact (drain_audio_preserves env _).2.1
            | exact (drain_audio_preserves env _).2.2.1
            | exact (drain_audio_preserves env _).2.2.2.1
            | exact (drain_audio_preserves env _).2.2.2.2.1
            | exact (drain_audio_preserves env _).2.2.2.2.2
    · rw [if_neg h2]
      by_cases h4 : s.n_prerolled = 0 ∧ s.audio_info_valid = true
      · rw [if_pos h4]
        try dsimp only
        by_cases h5 : env.begin_preroll_hr ≠ S_OK
        · rw [if_pos h5]
          refine ⟨_, _, _, _, _, _, _, _, rfl, rfl, rfl, rfl, rfl, rfl, rfl⟩
        · rw [if_neg h5]
          try dsimp only
          by_cases h6 : (drain_audio env s.audio_buf).1 ≠ S_OK
          · rw [if_pos h6]
            refine ⟨_, _, _, _, _, _, _, _, rfl, ?_, ?_, ?_, ?_, ?_, ?_⟩ <;>
              first
                | exact (drain_audio_preserves env _).1
                | exact (drain_audio_preserves env _).2.1
                | exact (drain_audio_preserves env _).2.2.1
                | exact (drain_audio_preserves env _).2.2.2.1
                | exact (drain_audio_preserves env _).2.2.2.2.1
                | exact (drain_audio_preserves env _).2.2.2.2.2
          · rw [if_neg h6]
            try dsimp only
            by_cases h7 : s.n_preroll_frames ≤ s.n_prerolled + 1
            · rw [if_pos h7]
              try dsimp only
              by_cases h8 : s.audio_info_valid = true
              · rw [if_pos h8]
                try dsimp only
                by_cases h9 : env.end_preroll_hr ≠ S_OK
                · rw [if_pos h9]
                  refine ⟨_, _, _, _, _, _, _, _, rfl, ?_, ?_, ?_, ?_, ?_, ?_⟩ <;>
                    first
                      | exact (drain_audio_preserves env _).1
                      | exact (drain_audio_preserves env _).2.1
                      | exact (drain_audio_preserves env _).2.2.1
                      | exact (drain_audio_preserves env _).2.2.2.1
                      | exact (drain_audio_preserves env _).2.2.2.2.1
                      | exact (drain_audio_preserves env _).2.2.2.2.2
                · rw [if_neg h9]
                  try dsimp only
                  by_cases h10 : env.start_hr ≠ S_OK
                  · rw [if_pos h10]
                    refine ⟨_, _, _, _, _, _, _, _, rfl, ?_, ?_, ?_, ?_, ?_, ?_⟩ <;>
                      first
                        | exact (drain_audio_preserves env _).1
                        | exact (drain_audio_preserves env _).2.1
                        | exact (drain_audio_preserves env _).2.2.1
                        | exact (drain_audio_preserves env _).2.2.2.1
                        | exact (drain_audio_preserves env _).2.2.2.2.1
                        | exact (drain_audio_preserves env _).2.2.2.2.2
                  · rw [if_neg h10]
                    refine ⟨_, _, _, _, _, _, _, _, rfl, ?_, ?_, ?_, ?_, ?_, ?_⟩ <;>
                      first
                        | exact (drain_audio_preserves env _).1
                        | exact (drain_audio_preserves env _).2.1
                        | exact (drain_audio_preserves env _).2.2.1
                        | exact (drain_audio_preserves env _).2.2.2.1
                        | exact (drain_audio_preserves env _).2.2.2.2.1
                        | exact (drain_audio_preserves env _).2.2.2.2.2
              · rw [if_neg h8]
                try dsimp only
                by_cases h10 : env.start_hr ≠ S_OK
                · rw [if_pos h10]
                  refine ⟨_, _, _, _, _, _, _, _, rfl, ?_, ?_, ?_, ?_, ?_, ?_⟩ <;>
                    first
                      | exact (drain_audio_preserves env _).1
                      | exact (drain_audio_preserves env _).2.1
                      | exact (drain_audio_preserves env _).2.2.1
                      | exact (drain_audio_preserves env _).2.2.2.1
                      | exact (drain_audio_preserves env _).2.2.2.2.1
                      | exact (drain_audio_preserves env _).2.2.2.2.2
                · rw [if_neg h10]
                  refine ⟨_, _, _, _, _, _, _, _, rfl, ?_, ?_, ?_, ?_, ?_, ?_⟩ <;>
                    first
                      | exact (drain_audio_preserves env _).1
                      | exact (drain_audio_preserves env _).2.1
                      | exact (drain_audio_preserves env _).2.2.1
                      | exact (drain_audio_preserves env _).2.2.2.1
                      | exact (drain_audio_preserves env _).2.2.2.2.1
                      | exact (drain_audio_preserves env _).2.2.2.2.2
            · rw [if_neg h7]
              refine ⟨_, _, _, _, _, _, _, _, rfl, ?_, ?_, ?_, ?_, ?_, ?_⟩ <;>
                first
                  | exact (drain_audio_preserves env _).1
                  | exact (drain_audio_preserves env _).2.1
                  | exact (drain_audio_preserves env _).2.2.1
                  | exact (drain_audio_preserves env _).2.2.2.1
                  | exact (drain_audio_preserves env _).2.2.2.2.1
                  | exact (drain_audio_preserves env _).2.2.2.2.2
      · rw [if_neg h4]
        try dsimp only
        by_cases h6 : (drain_audio env s.audio_buf).1 ≠ S_OK
        · rw [if_pos h6]
          refine ⟨_, _, _, _, _, _, _, _, rfl, ?_, ?_, ?_, ?_, ?_, ?_⟩ <;>
            first
              | exact (drain_audio_preserves env _).1
              | exact (drain_audio_preserves env _).2.1
              | exact (drain_audio_preserves env _).2.2.1
              | exact (drain_audio_preserves env _).2.2.2.1
              | exact (drain_audio_preserves env _).2.2.2.2.1
              | exact (drain_audio_preserves env _).2.2.2.2.2
        · rw [if_neg h6]
          try dsimp only
          by_cases h7 : s.n_preroll_frames ≤ s.n_prerolled + 1
          · rw [if_pos h7]
            try dsimp only
            by_cases h8 : s.audio_info_valid = true
            · rw [if_pos h8]
              try dsimp only
              by_cases h9 : env.end_preroll_hr ≠ S_OK
              · rw [if_pos h9]
                refine ⟨_, _, _, _, _, _, _, _, rfl, ?_, ?_, ?_, ?_, ?_, ?_⟩ <;>
                  first
                    | exact (drain_audio_preserves env _).1
                    | exact (drain_audio_preserves env _).2.1
                    | exact (drain_audio_preserves env _).2.2.1
                    | exact (drain_audio_preserves env _).2.2.2.1
                    | exact (drain_audio_preserves env _).2.2.2.2.1
                    | exact (drain_audio_preserves env _).2.2.2.2.2
              · rw [if_neg h9]
                try dsimp only
                by_cases h10 : env.start_hr ≠ S_OK
                · rw [if_pos h10]
                  refine ⟨_, _, _, _, _, _, _, _, rfl, ?_, ?_, ?_, ?_, ?_, ?_⟩ <;>
                    first
                      | exact (drain_audio_preserves env _).1
                      | exact (drain_audio_preserves env _).2.1
                      | exact (drain_audio_preserves env _).2.2.1
                      | exact (drain_audio_preserves env _).2.2.2.1
                      | exact (drain_audio_preserves env _).2.2.2.2.1
                      | exact (drain_audio_preserves env _).2.2.2.2.2
                · rw [if_neg h10]
                  refine ⟨_, _, _, _, _, _, _, _, rfl, ?_, ?_, ?_, ?_, ?_, ?_⟩ <;>
                    first
                      | exact (drain_audio_preserves env _).1
                      | exact (drain_audio_preserves env _).2.1
                      | exact (drain_audio_preserves env _).2.2.1
                      | exact (drain_audio_preserves env _).2.2.2.1
                      | exact (drain_audio_preserves env _).2.2.2.2.1
                      | exact (drain_audio_preserves env _).2.2.2.2.2
            · rw [if_neg h8]
              try dsimp only
              by_cases h10 : env.start_hr ≠ S_OK
              · rw [if_pos h10]
                refine ⟨_, _, _, _, _, _, _, _, rfl, ?_, ?_, ?_, ?_, ?_, ?_⟩ <;>
                  first
                    | exact (drain_audio_preserves env _).1
                    | exact (drain_audio_preserves env _).2.1
                    | exact (drain_audio_preserves env _).2.2.1
                    | exact (drain_audio_preserves env _).2.2.2.1
                    | exact (drain_audio_preserves env _).2.2.2.2.1
                    | exact (drain_audio_preserves env _).2.2.2.2.2
              · rw [if_neg h10]
                refine ⟨_, _, _, _, _, _, _, _, rfl, ?_, ?_, ?_, ?_, ?_, ?_⟩ <;>
                  first
                    | exact (drain_audio_preserves env _).1
                    | exact (drain_audio_preserves env _).2.1
                    | exact (drain_audio_preserves env _).2.2.1
                    | exact (drain_audio_preserves env _).2.2.2.1
                    | exact (drain_audio_preserves env _).2.2.2.2.1
                    | exact (drain_audio_preserves env _).2.2.2.2.2
          · rw [if_neg h7]
            refine ⟨_, _, _, _, _, _, _, _, rfl, ?_, ?_, ?_, ?_, ?_, ?_⟩ <;>
              first
                | exact (drain_audio_preserves env _).1
                | exact (drain_audio_preserves env _).2.1
                | exact (drain_audio_preserves env _).2.2.1
                | exact (drain_audio_preserves env _).2.2.2.1
                | exact (drain_audio_preserves env _).2.2.2.2.1
                | exact (drain_audio_preserves env _).2.2.2.2.2

theorem schedule_video_internal_video_step (env : OutputEnv) (frame : Nat)
    (s : OutputState) :
    (gst_decklink2_output_schedule_video_internal env frame s).2.scheduled_video =
      s.scheduled_video ++ [(frame, s.pts,
        gst_util_uint64_scale (s.n_frames + 1) (s.fps_d * GST_SECOND) s.fps_n -
          s.pts)] ∧
    (gst_decklink2_output_schedule_video_internal env frame s).2.n_frames =
      s.n_frames + 1 ∧
    (gst_decklink2_output_schedule_video_internal env frame s).2.pts =
      gst_util_uint64_scale (s.n_frames + 1) (s.fps_d * GST_SECOND) s.fps_n ∧
    (gst_decklink2_output_schedule_video_internal env frame s).2.fps_n = s.fps_n ∧
    (gst_decklink2_output_schedule_video_internal env frame s).2.fps_d = s.fps_d := by
  obtain ⟨hw, hhw⟩ := get_current_level_state env s
  unfold gst_decklink2_output_schedule_video_internal
  rw [hhw]
  dsimp only
  obtain ⟨ns, ab, np, pr, run, sa, bc, ec, hshape, -⟩ :=
    schedule_video_finish_shape env
      { s with
        hw_time := hw
        last_frame := some frame
        scheduled_video := s.scheduled_video ++ [(frame, s.pts,
          gst_util_uint64_scale (s.n_frames + 1) (s.fps_d * GST_SECOND) s.fps_n -
            s.pts)]
        n_frames := s.n_frames + 1
        pts := gst_util_uint64_scale (s.n_frames + 1) (s.fps_d * GST_SECOND) s.fps_n }
  rw [hshape]
  exact ⟨rfl, rfl, rfl, rfl, rfl⟩

/-- The scheduled (frame, pts, duration) log of `n` successive submissions:
frame `j` is scheduled at `pts_j = gst_util_uint64_scale (n0 + j,
fps_d * GST_SECOND, fps_n)` with duration `pts_(j+1) - pts_j`. -/
theorem iterate_schedule_video_spec (env : OutputEnv) (n : Nat) (s : OutputState)
    (hpts : s.pts = gst_util_uint64_scale s.n_frames (s.fps_d * GST_SECOND) s.fps_n) :
    (iterate_schedule_video env n s).scheduled_video =
      s.scheduled_video ++ (List.range n).map (fun j =>
        (0, gst_util_uint64_scale (s.n_frames + j) (s.fps_d * GST_SECOND) s.fps_n,
         gst_util_uint64_scale (s.n_frames + j + 1) (s.fps_d * GST_SECOND) s.fps_n -
           gst_util_uint64_scale (s.n_frames + j) (s.fps_d * GST_SECOND) s.fps_n)) := by
  induction n generalizing s with
  | zero => simp [iterate_schedule_video]
  | succ k ih =>
    have hstep := schedule_video_internal_video_step env 0 s
    have hpts' : (gst_decklink2_output_schedule_video_internal env 0 s).2.pts =
        gst_util_uint64_scale
          (gst_decklink2_output_schedule_video_internal env 0 s).2.n_frames
          ((gst_decklink2_output_schedule_video_internal env 0 s).2.fps_d * GST_SECOND)
          (gst_decklink2_output_schedule_video_internal env 0 s).2.fps_n := by
      rw [hstep.2.1, hstep.2.2.1, hstep.2.2.2.1, hstep.2.2.2.2]
    have hk := ih (gst_decklink2_output_schedule_video_internal env 0 s).2 hpts'
    show (iterate_schedule_video env k
        (gst_decklink2_output_schedule_video_internal env 0 s).2).scheduled_video = _
    rw [hk, hstep.1, hstep.2.1, hstep.2.2.2.1, hstep.2.2.2.2, hpts]
    simp only [List.range_succ_eq_map, List.map_cons, List.map_map,
      List.append_assoc, List.singleton_append, Nat.add_zero, Function.comp_def,
      Nat.succ_eq_add_one, Nat.zero_add, Nat.add_assoc, Nat.add_comm 1]

/-- An output configured for 30000/1001 fps with no audio, as used by C3. -/
def c3State : OutputState :=
  (gst_decklink2_output_configure okEnv 30000 1001 7 3 14 0 0 freshOutputState).2

/-- C3 counterexample: at 30000/1001 fps the second frame (i = 1) is scheduled
at `gst_util_uint64_scale (1, 1001 * GST_SECOND, 30000) = 33366666` ns — the
truncating scaled divide — while half-up rounding of `1 × 1001 × TIME_UNIT /
30000` gives 33366667, so the claimed `round` formula fails already at i = 1. -/
theorem c3_counterexample :
    ((iterate_schedule_video okEnv 2 c3State).scheduled_video.map
        (fun r => r.2.1)).get? 1 = some 33366666 ∧
    (1 * (1001 * GST_SECOND) + 30000 / 2) / 30000 = 33366667 ∧
    (33366666 : Nat) ≠ 33366667 := by
  exact ⟨by decide, by decide, by decide⟩

/-- C3 amended: for a 30000/1001 mode started from a configured state, the
`i`-th submitted frame is scheduled at exactly
`pts_i = gst_util_uint64_scale (i, 1001 * GST_SECOND, 30000)` — the floor of
`i × 1001 × TIME_UNIT / 30000`, with no accumulated error for every `i` — and
its duration is `pts_(i+1) - pts_i` (gstdecklink2output.cpp:1451-1477). -/
theorem c3_amended_scheduled_pts_floor (env : OutputEnv) (n i : Nat)
    (s : OutputState)
    (h1 : s.scheduled_video = []) (h2 : s.n_frames = 0) (h3 : s.pts = 0)
    (h4 : s.fps_n = 30000) (h5 : s.fps_d = 1001) (hi : i < n) :
    (iterate_schedule_video env n s).scheduled_video.get? i =
      some (0, gst_util_uint64_scale i (1001 * GST_SECOND) 30000,
        gst_util_uint64_scale (i + 1) (1001 * GST_SECOND) 30000 -
          gst_util_uint64_scale i (1001 * GST_SECOND) 30000) := by
  have hpts : s.pts = gst_util_uint64_scale s.n_frames (s.fps_d * GST_SECOND) s.fps_n := by
    rw [h2, h3]
    simp [gst_util_uint64_scale]
  have hspec := iterate_schedule_video_spec env n s hpts
  rw [h1, h2, h4, h5] at hspec
  rw [hspec]
  simp only [List.nil_append, List.get?_eq_getElem?, List.getElem?_map,
    List.getElem?_range hi, Nat.zero_add]
  rfl

/-- Witness for the C3 amended theorem: frame 1 of a two-frame run from the
configured state is scheduled at (33366666, duration 33366667). -/
theorem c3_amended_scheduled_pts_floor_witness :
    (iterate_schedule_video okEnv 2 c3State).scheduled_video.get? 1 =
      some (0, 33366666, 33366667) := by
  have h := c3_amended_scheduled_pts_floor okEnv 2 1 c3State (by decide) (by decide)
    (by decide) (by decide) (by decide) (by decide)
  rw [h]
  decide

/-- A submission preserves the statistics counters, the recovery bookkeeping
and the audio buffer's duplication counters; it retains the submitted frame as
`last_frame`, counts it, and appends exactly one scheduling record for it. -/
theorem schedule_video_internal_counters (env : OutputEnv) (frame : Nat)
    (s : OutputState) :
    (gst_decklink2_output_schedule_video_internal env frame s).2.duplicate_count =
      s.duplicate_count ∧
    (gst_decklink2_output_schedule_video_internal env frame s).2.underrun_count =
      s.underrun_count ∧
    (gst_decklink2_output_schedule_video_internal env frame s).2.silent_sample_count =
      s.silent_sample_count ∧
    (gst_decklink2_output_schedule_video_internal env frame s).2.duplicating =
      s.duplicating ∧
    (gst_decklink2_output_schedule_video_internal env frame s).2.gap_frames =
      s.gap_frames ∧
    (gst_decklink2_output_schedule_video_internal env frame s).2.min_buffered =
      s.min_buffered ∧
    (gst_decklink2_output_schedule_video_internal env frame s).2.last_frame =
      some frame ∧
    (gst_decklink2_output_schedule_video_internal env frame s).2.n_frames =
      s.n_frames + 1 ∧
    (gst_decklink2_output_schedule_video_internal env frame s).2.audio_buf.init_done =
      s.audio_buf.init_done ∧
    (gst_decklink2_output_schedule_video_internal env frame s).2.audio_buf.video_frame_dup_drop_count =
      s.audio_buf.video_frame_dup_drop_count ∧
    (gst_decklink2_output_schedule_video_internal env frame s).2.scheduled_video.map
        (fun r => r.1) =
      s.scheduled_video.map (fun r => r.1) ++ [frame] := by
  obtain ⟨hw, hhw⟩ := get_current_level_state env s
  unfold gst_decklink2_output_schedule_video_internal
  rw [hhw]
  dsimp only
  obtain ⟨ns, ab, np, pr, run, sa, bc, ec, hshape, hi1, hi2, -⟩ :=
    schedule_video_finish_shape env
      { s with
        hw_time := hw
        last_frame := some frame
        scheduled_video := s.scheduled_video ++ [(frame, s.pts,
          gst_util_uint64_scale (s.n_frames + 1) (s.fps_d * GST_SECOND) s.fps_n -
            s.pts)]
        n_frames := s.n_frames + 1
        pts := gst_util_uint64_scale (s.n_frames + 1) (s.fps_d * GST_SECOND) s.fps_n }
  rw [hshape]
  refine ⟨rfl, rfl, rfl, rfl, rfl, rfl, rfl, rfl, hi1, hi2, ?_⟩
  simp

/-- A successful `PrependSilence` advances the duplication counter by one and
keeps the buffer initialized. -/
theorem prependSilence_counts (ab : AudioBuffer) (h : ab.init_done = true) :
    (ab.prependSilence).1.video_frame_dup_drop_count =
      ab.video_frame_dup_drop_count + 1 ∧
    (ab.prependSilence).1.init_done = true := by
  simp [AudioBuffer.prependSilence, h]

/-- One recovery iteration: one duplicate submission, one silence insertion. -/
theorem duplicate_once_counts (env : OutputEnv) (s : OutputState)
    (hinit : s.audio_buf.init_done = true) :
    (duplicate_once env s).duplicate_count = s.duplicate_count + 1 ∧
    (duplicate_once env s).audio_buf.video_frame_dup_drop_count =
      s.audio_buf.video_frame_dup_drop_count + 1 ∧
    (duplicate_once env s).underrun_count = s.underrun_count ∧
    (duplicate_once env s).duplicating = s.duplicating ∧
    (duplicate_once env s).audio_buf.init_done = true ∧
    (duplicate_once env s).gap_frames = s.gap_frames := by
  unfold duplicate_once
  dsimp only
  have hpre := prependSilence_counts s.audio_buf hinit
  have hc := schedule_video_internal_counters env
    ((env.clone (s.last_frame.getD 0)).getD (s.last_frame.getD 0))
    { s with audio_buf := (s.audio_buf.prependSilence).1,
             silent_sample_count := s.silent_sample_count +
               (s.audio_buf.prependSilence).2 }
  refine ⟨?_, ?_, ?_, ?_, ?_, ?_⟩
  · rw [hc.1]
  · rw [hc.2.2.2.2.2.2.2.2.2.1]
    exact hpre.1
  · rw [hc.2.1]
  · rw [hc.2.2.2.1]
  · rw [hc.2.2.2.2.2.2.2.2.1]
    exact hpre.2
  · rw [hc.2.2.2.2.1]

/-- The recovery burst of `k` iterations: exactly `k` duplicate submissions
and exactly `k` silence insertions, with the underrun counter and the
re-entrancy flag untouched. -/
theorem duplicate_burst_counts (env : OutputEnv) (k : Nat) (s : OutputState)
    (hinit : s.audio_buf.init_done = true) :
    (duplicate_burst env k s).duplicate_count = s.duplicate_count + k ∧
    (duplicate_burst env k s).audio_buf.video_frame_dup_drop_count =
      s.audio_buf.video_frame_dup_drop_count + k ∧
    (duplicate_burst env k s).underrun_count = s.underrun_count ∧
    (duplicate_burst env k s).duplicating = s.duplicating ∧
    (duplicate_burst env k s).audio_buf.init_done = true := by
  induction k generalizing s with
  | zero => exact ⟨rfl, rfl, rfl, rfl, hinit⟩
  | succ m ih =>
    have h1 := duplicate_once_counts env s hinit
    have h2 := ih (duplicate_once env s) h1.2.2.2.2.1
    refine ⟨?_, ?_, ?_, ?_, h2.2.2.2.2⟩
    · show (duplicate_burst env m (duplicate_once env s)).duplicate_count = _
      rw [h2.1, h1.1]
      omega
    · show (duplicate_burst env m (duplicate_once env s)).audio_buf.video_frame_dup_drop_count = _
      rw [h2.2.1, h1.2.1]
      omega
    · show (duplicate_burst env m (duplicate_once env s)).underrun_count = _
      rw [h2.2.2.1, h1.2.2.1]
    · show (duplicate_burst env m (duplicate_once env s)).duplicating = _
      rw [h2.2.2.2.1, h1.2.2.2.1]

/-- When cloning fails, one recovery iteration resubmits the original frame
reference itself and keeps it as `last_frame`. -/
theorem duplicate_once_clone_fallback (env : OutputEnv) (s : OutputState)
    (f : Nat) (hf : s.last_frame = some f) (hcl : env.clone f = none) :
    (duplicate_once env s).last_frame = some f ∧
    (duplicate_once env s).scheduled_video.map (fun r => r.1) =
      s.scheduled_video.map (fun r => r.1) ++ [f] := by
  unfold duplicate_once
  dsimp only
  have hcopy : (env.clone (s.last_frame.getD 0)).getD (s.last_frame.getD 0) = f := by
    simp [hf, hcl]
  rw [hcopy]
  have hc := schedule_video_internal_counters env f
    { s with audio_buf := (s.audio_buf.prependSilence).1,
             silent_sample_count := s.silent_sample_count +
               (s.audio_buf.prependSilence).2 }
  exact ⟨hc.2.2.2.2.2.2.1, hc.2.2.2.2.2.2.2.2.2.2⟩

/-- A clone-failing burst of `k` iterations resubmits the original frame `k`
times. -/
theorem duplicate_burst_clone_fallback (env : OutputEnv) (k : Nat)
    (s : OutputState) (f : Nat)
    (hf : s.last_frame = some f) (hcl : env.clone f = none) :
    (duplicate_burst env k s).last_frame = some f ∧
    (duplicate_burst env k s).scheduled_video.map (fun r => r.1) =
      s.scheduled_video.map (fun r => r.1) ++ List.replicate k f := by
  induction k generalizing s with
  | zero => exact ⟨hf, by simp [duplicate_burst]⟩
  | succ m ih =>
    have h1 := duplicate_once_clone_fallback env s f hf hcl
    have h2 := ih (duplicate_once env s) h1.1
    refine ⟨h2.1, ?_⟩
    show (duplicate_burst env m (duplicate_once env s)).scheduled_video.map _ = _
    rw [h2.2, h1.2, List.append_assoc]
    simp [List.replicate_succ]

/-- The underrun check at a state with a retained frame, playback running,
successful level queries and the buffered count at or below the low-water
mark: one underrun counted; a full burst unless a recovery is in flight. -/
theorem on_completed_check_spec (env : OutputEnv) (t : OutputState) (f : Nat)
    (hf : t.last_frame = some f)
    (hrun : env.running_hr = S_OK)
    (hactive : t.playback_running = true)
    (h1 : env.buffered_video_hr = S_OK) (h2 : env.buffered_audio_hr = S_OK)
    (h3 : env.ref_clock_hr = S_OK)
    (hlow : env.buffered_video ≤ t.min_buffered) :
    (t.duplicating = false ∧ t.audio_buf.init_done = true →
      (on_completed_check env t).underrun_count = t.underrun_count + 1 ∧
      (on_completed_check env t).duplicate_count =
        t.duplicate_count + t.gap_frames ∧
      (on_completed_check env t).audio_buf.video_frame_dup_drop_count =
        t.audio_buf.video_frame_dup_drop_count + t.gap_frames ∧
      (on_completed_check env t).duplicating = false) ∧
    (t.duplicating = true →
      (on_completed_check env t).underrun_count = t.underrun_count + 1 ∧
      (on_completed_check env t).duplicate_count = t.duplicate_count ∧
      (on_completed_check env t).audio_buf = t.audio_buf ∧
      (on_completed_check env t).n_frames = t.n_frames) ∧
    (t.duplicating = false ∧ t.audio_buf.init_done = true ∧ env.clone f = none →
      (on_completed_check env t).last_frame = some f ∧
      (on_completed_check env t).scheduled_video.map (fun r => r.1) =
        t.scheduled_video.map (fun r => r.1) ++
          List.replicate t.gap_frames f) := by
  obtain ⟨hw, hhw⟩ := get_current_level_state env t
  obtain ⟨hok, hbv⟩ := get_current_level_hr_ok env t h1 h2 h3
  have hred : on_completed_check env t =
      (if t.duplicating then
        { t with
          hw_time := hw
          underrun_count := t.underrun_count + 1 }
       else
        { duplicate_burst env t.gap_frames
            { t with
              hw_time := hw
              underrun_count := t.underrun_count + 1
              duplicating := true } with
          duplicating := false }) := by
    unfold on_completed_check
    rw [hf]
    simp only [reduceCtorEq, if_false, ite_false, hrun, hactive,
      not_true_eq_false, Bool.true_eq_false, ne_eq, not_false_eq_true, if_true,
      ite_true]
    rw [hhw, hok, hbv]
    simp only [ne_eq, not_true_eq_false, if_false, ite_false]
    rw [if_pos hlow]
    by_cases hd : t.duplicating = true
    · rw [if_pos hd, if_pos hd, hf, hactive]
    · rw [if_neg hd, if_neg hd, hf, hactive]
  refine ⟨fun hc => ?_, fun hc => ?_, fun hc => ?_⟩
  · rw [hred, if_neg (by rw [hc.1]; exact Bool.false_ne_true)]
    have hb := duplicate_burst_counts env t.gap_frames
      { t with
        hw_time := hw
        underrun_count := t.underrun_count + 1
        duplicating := true } hc.2
    exact ⟨hb.2.2.1, by rw [hb.1], by rw [hb.2.1], rfl⟩
  · rw [hred, if_pos hc]
    exact ⟨rfl, rfl, rfl, rfl⟩
  · rw [hred, if_neg (by rw [hc.1]; exact Bool.false_ne_true)]
    have hb := duplicate_burst_clone_fallback env t.gap_frames
      { t with
        hw_time := hw
        underrun_count := t.underrun_count + 1
        duplicating := true } f hf hc.2.2
    exact ⟨hb.1, hb.2⟩

/-- C5: the underrun recovery of `gst_decklink2_output_on_completed`
(gstdecklink2output.cpp:2290-2347).  When the callback runs with a retained
last frame, playback active, the buffered count at or below `min_buffered`
and no recovery in flight, it performs exactly `gap_frames` duplicate
submissions and exactly `gap_frames` silence insertions, incrementing
`duplicate_count` by exactly `gap_frames` and `underrun_count` by exactly 1,
clearing the re-entrancy flag afterwards; a nested invocation that finds the
flag set counts the underrun but performs no duplication; and when cloning
fails the original frame reference itself is resubmitted each time. -/
theorem c5_underrun_recovery_bounded (env : OutputEnv) (res : CompletionResult)
    (s : OutputState) (f : Nat)
    (hf : s.last_frame = some f)
    (hrun : env.running_hr = S_OK)
    (hactive : s.playback_running = true)
    (h1 : env.buffered_video_hr = S_OK) (h2 : env.buffered_audio_hr = S_OK)
    (h3 : env.ref_clock_hr = S_OK)
    (hlow : env.buffered_video ≤ s.min_buffered) :
    (s.duplicating = false ∧ s.audio_buf.init_done = true →
      (gst_decklink2_output_on_completed env res s).underrun_count =
        s.underrun_count + 1 ∧
      (gst_decklink2_output_on_completed env res s).duplicate_count =
        s.duplicate_count + s.gap_frames ∧
      (gst_decklink2_output_on_completed env res s).audio_buf.video_frame_dup_drop_count =
        s.audio_buf.video_frame_dup_drop_count + s.gap_frames ∧
      (gst_decklink2_output_on_completed env res s).duplicating = false) ∧
    (s.duplicating = true →
      (gst_decklink2_output_on_completed env res s).underrun_count =
        s.underrun_count + 1 ∧
      (gst_decklink2_output_on_completed env res s).duplicate_count =
        s.duplicate_count ∧
      (gst_decklink2_output_on_completed env res s).audio_buf = s.audio_buf ∧
      (gst_decklink2_output_on_completed env res s).n_frames = s.n_frames) ∧
    (s.duplicating = false ∧ s.audio_buf.init_done = true ∧
        env.clone f = none →
      (gst_decklink2_output_on_completed env res s).last_frame = some f ∧
      (gst_decklink2_output_on_completed env res s).scheduled_video.map
          (fun r => r.1) =
        s.scheduled_video.map (fun r => r.1) ++
          List.replicate s.gap_frames f) := by
  cases res with
  | completed => exact on_completed_check_spec env s f hf hrun hactive h1 h2 h3 hlow
  | displayedLate =>
    exact on_completed_check_spec env { s with late_count := s.late_count + 1 }
      f hf hrun hactive h1 h2 h3 hlow
  | dropped =>
    exact on_completed_check_spec env { s with drop_count := s.drop_count + 1 }
      f hf hrun hactive h1 h2 h3 hlow
  | flushed => exact on_completed_check_spec env s f hf hrun hactive h1 h2 h3 hlow

/-- State for the C5 witness: playing, `min_buffered = 3`, `gap_frames = 2`,
initialized audio, frame 7 retained. -/
def c5State : OutputState :=
  { freshOutputState with
    playback_running := true
    prerolled := true
    min_buffered := 3
    gap_frames := 2
    audio_info_valid := true
    audio_bpf := 4
    audio_rate := 48000
    fps_n := 30
    fps_d := 1
    audio_buf := AudioBuffer.mkInit 48000 4 30 1
    last_frame := some 7 }

/-- Environment for the C5 witness: the device reports 2 ≤ 3 buffered
frames. -/
def c5Env : OutputEnv := { okEnv with buffered_video := 2 }

/-- Witness for C5: a completion at 2 buffered frames with `gap_frames = 2`
counts one underrun, two duplicates and two silence insertions. -/
theorem c5_underrun_recovery_bounded_witness :
    (gst_decklink2_output_on_completed c5Env .completed c5State).underrun_count = 1 ∧
    (gst_decklink2_output_on_completed c5Env .completed c5State).duplicate_count = 2 ∧
    (gst_decklink2_output_on_completed c5Env .completed c5State).audio_buf.video_frame_dup_drop_count = 2 ∧
    (gst_decklink2_output_on_completed c5Env .completed c5State).duplicating = false := by
  have h := (c5_underrun_recovery_bounded c5Env .completed c5State 7 rfl rfl rfl
    rfl rfl rfl (by decide)).1 ⟨rfl, rfl⟩
  exact ⟨by rw [h.1]; decide, by rw [h.2.1]; decide, by rw [h.2.2.1]; decide,
    h.2.2.2⟩

/-- The drain loop reports success whenever the device audio call succeeds. -/
theorem drain_audio_loop_hr (env : OutputEnv) (fuel : Nat) (ab : AudioBuffer)
    (ha : env.schedule_audio_hr = S_OK) :
    (drain_audio_loop env fuel ab).1 = S_OK := by
  induction fuel generalizing ab with
  | zero => rfl
  | succ k ih =>
    unfold drain_audio_loop
    dsimp only
    split_ifs with h1 h2
    · rfl
    · exact absurd ha h2
    · exact ih _

/-- The audio drain reports success whenever the device audio call succeeds. -/
theorem drain_audio_hr (env : OutputEnv) (ab : AudioBuffer)
    (ha : env.schedule_audio_hr = S_OK) :
    (drain_audio env ab).1 = S_OK :=
  drain_audio_loop_hr env _ ab ha

/-- The preroll accounting of the submission tail when every device call
succeeds: the preroll counter advances by one; audio preroll begins on the
first submission with audio configured; scheduled playback starts with
`StartScheduledPlayback (0, GST_SECOND, 1.0)` exactly on the submission that
reaches `n_preroll_frames`, after ending audio preroll. -/
theorem schedule_video_finish_preroll (env : OutputEnv) (s : OutputState)
    (hv : env.schedule_video_hr = S_OK) (ha : env.schedule_audio_hr = S_OK)
    (hb : env.begin_preroll_hr = S_OK) (he : env.end_preroll_hr = S_OK)
    (hst : env.start_hr = S_OK) (hnp : s.prerolled = false) :
    (schedule_video_finish env s).1 = S_OK ∧
    (schedule_video_finish env s).2.n_prerolled = s.n_prerolled + 1 ∧
    (s.n_preroll_frames ≤ s.n_prerolled + 1 →
      (schedule_video_finish env s).2.prerolled = true ∧
      (schedule_video_finish env s).2.playback_running = true ∧
      (schedule_video_finish env s).2.start_args =
        s.start_args ++ [(0, GST_SECOND)] ∧
      (s.audio_info_valid = true →
        (schedule_video_finish env s).2.end_preroll_calls =
          s.end_preroll_calls + 1)) ∧
    (s.n_prerolled + 1 < s.n_preroll_frames →
      (schedule_video_finish env s).2.prerolled = false ∧
      (schedule_video_finish env s).2.playback_running = s.playback_running ∧
      (schedule_video_finish env s).2.start_args = s.start_args) ∧
    (s.n_prerolled = 0 ∧ s.audio_info_valid = true →
      (schedule_video_finish env s).2.begin_preroll_calls =
        s.begin_preroll_calls + 1) := by
  have hvne : ¬ env.schedule_video_hr ≠ S_OK := by simp [hv]
  unfold schedule_video_finish schedule_video_preroll_path
  rw [if_neg hvne]
  dsimp only
  rw [if_neg (by rw [hnp]; exact Bool.false_ne_true)]
  by_cases hbc : s.n_prerolled = 0 ∧ s.audio_info_valid = true
  · rw [if_pos hbc]
    try dsimp only
    rw [if_neg (by simp [hb])]
    try dsimp only
    rw [(by rfl :
      (drain_audio env ({ s with
        n_samples := s.n_samples + s.audio_buf.numSamples,
        begin_preroll_calls := s.begin_preroll_calls + 1 } :
          OutputState).audio_buf) = drain_audio env s.audio_buf)]
    rw [if_neg (by rw [drain_audio_hr env s.audio_buf ha]; exact fun hc => hc rfl)]
    try dsimp only
    by_cases hth : s.n_preroll_frames ≤ s.n_prerolled + 1
    · rw [if_pos hth, if_pos hbc.2]
      try dsimp only
      rw [if_neg (by simp [he])]
      try dsimp only
      rw [if_neg (by simp [hst])]
      exact ⟨rfl, rfl, fun _ => ⟨rfl, rfl, rfl, fun _ => rfl⟩,
        fun hcon => absurd hcon (by omega), fun _ => rfl⟩
    · rw [if_neg hth]
      exact ⟨rfl, rfl, fun hcon => absurd hcon hth, fun _ => ⟨hnp, rfl, rfl⟩,
        fun _ => rfl⟩
  · rw [if_neg hbc]
    try dsimp only
    rw [if_neg (by simp [S_OK])]
    try dsimp only
    rw [(by rfl :
      (drain_audio env ({ s with
        n_samples := s.n_samples + s.audio_buf.numSamples } :
          OutputState).audio_buf) = drain_audio env s.audio_buf)]
    rw [if_neg (by rw [drain_audio_hr env s.audio_buf ha]; exact fun hc => hc rfl)]
    try dsimp only
    by_cases hth : s.n_preroll_frames ≤ s.n_prerolled + 1
    · rw [if_pos hth]
      by_cases hav : s.audio_info_valid = true
      · rw [if_pos hav]
        try dsimp only
        rw [if_neg (by simp [he])]
        try dsimp only
        rw [if_neg (by simp [hst])]
        exact ⟨rfl, rfl, fun _ => ⟨rfl, rfl, rfl, fun _ => rfl⟩,
          fun hcon => absurd hcon (by omega), fun hcon => absurd hcon hbc⟩
      · rw [if_neg hav]
        try dsimp only
        rw [if_neg (by simp [S_OK])]
        try dsimp only
        rw [if_neg (by simp [hst])]
        exact ⟨rfl, rfl, fun _ => ⟨rfl, rfl, rfl, fun hcon => absurd hcon hav⟩,
          fun hcon => absurd hcon (by omega), fun hcon => absurd hcon hbc⟩
    · rw [if_neg hth]
      exact ⟨rfl, rfl, fun hcon => absurd hcon hth, fun _ => ⟨hnp, rfl, rfl⟩,
        fun hcon => absurd hcon hbc⟩

/-- The output configured as in the spec's scenario A:
`configure (fps 30/1, prerollFrames 7, minBuffered 3, maxBuffered 14)` with
16-bit stereo audio. -/
def c7State : OutputState :=
  (gst_decklink2_output_configure okEnv 30 1 7 3 14 2 2 freshOutputState).2

/-- Two sample frames (8 bytes at bpf 4) of silence submitted with each frame
in the C7 scenario. -/
def c7Audio : List Nat := List.replicate 8 0

/-- C7: preroll accounting and playback start
(gstdecklink2output.cpp:1487-1536).  While not yet prerolled and with the
device calls succeeding, every submission increments the preroll counter;
audio preroll begins on the first submission when audio is configured;
scheduled playback starts — after ending audio preroll — exactly during the
submission on which the counter reaches `n_preroll_frames`, via
`StartScheduledPlayback (0, GST_SECOND, 1.0)`, setting the prerolled flag.
In scenario A (preroll 7, 7 submissions) playback starts during the 7th
submit and the drop, underrun and overrun counters stay 0 throughout. -/
theorem c7_preroll_start (env : OutputEnv) (frame : Nat) (s : OutputState)
    (hv : env.schedule_video_hr = S_OK)
    (ha : env.schedule_audio_hr = S_OK)
    (hb : env.begin_preroll_hr = S_OK)
    (he : env.end_preroll_hr = S_OK)
    (hst : env.start_hr = S_OK)
    (hnp : s.prerolled = false) :
    ((gst_decklink2_output_schedule_video_internal env frame s).1 = S_OK ∧
     (gst_decklink2_output_schedule_video_internal env frame s).2.n_prerolled =
       s.n_prerolled + 1 ∧
     (s.n_preroll_frames ≤ s.n_prerolled + 1 →
       (gst_decklink2_output_schedule_video_internal env frame s).2.prerolled = true ∧
       (gst_decklink2_output_schedule_video_internal env frame s).2.playback_running = true ∧
       (gst_decklink2_output_schedule_video_internal env frame s).2.start_args =
         s.start_args ++ [(0, GST_SECOND)] ∧
       (s.audio_info_valid = true →
         (gst_decklink2_output_schedule_video_internal env frame s).2.end_preroll_calls =
           s.end_preroll_calls + 1)) ∧
     (s.n_prerolled + 1 < s.n_preroll_frames →
       (gst_decklink2_output_schedule_video_internal env frame s).2.prerolled = false ∧
       (gst_decklink2_output_schedule_video_internal env frame s).2.playback_running =
         s.playback_running ∧
       (gst_decklink2_output_schedule_video_internal env frame s).2.start_args =
         s.start_args) ∧
     (s.n_prerolled = 0 ∧ s.audio_info_valid = true →
       (gst_decklink2_output_schedule_video_internal env frame s).2.begin_preroll_calls =
         s.begin_preroll_calls + 1)) ∧
    ((iterate_schedule_stream okEnv c7Audio 6 c7State).playback_running = false ∧
     (iterate_schedule_stream okEnv c7Audio 6 c7State).prerolled = false ∧
     (iterate_schedule_stream okEnv c7Audio 7 c7State).playback_running = true ∧
     (iterate_schedule_stream okEnv c7Audio 7 c7State).prerolled = true ∧
     (iterate_schedule_stream okEnv c7Audio 7 c7State).start_args =
       [(0, GST_SECOND)] ∧
     (iterate_schedule_stream okEnv c7Audio 7 c7State).n_prerolled = 7 ∧
     (iterate_schedule_stream okEnv c7Audio 7 c7State).drop_count = 0 ∧
     (iterate_schedule_stream okEnv c7Audio 7 c7State).underrun_count = 0 ∧
     (iterate_schedule_stream okEnv c7Audio 7 c7State).overrun_count = 0) := by
  constructor
  · obtain ⟨hw, hhw⟩ := get_current_level_state env s
    unfold gst_decklink2_output_schedule_video_internal
    rw [hhw]
    dsimp only
    have h := schedule_video_finish_preroll env
      { s with
        hw_time := hw
        last_frame := some frame
        scheduled_video := s.scheduled_video ++ [(frame, s.pts,
          gst_util_uint64_scale (s.n_frames + 1) (s.fps_d * GST_SECOND) s.fps_n -
            s.pts)]
        n_frames := s.n_frames + 1
        pts := gst_util_uint64_scale (s.n_frames + 1) (s.fps_d * GST_SECOND) s.fps_n }
      hv ha hb he hst hnp
    exact ⟨h.1, h.2.1, h.2.2.1, h.2.2.2.1, h.2.2.2.2⟩
  · refine ⟨by decide, by decide, by decide, by decide, by decide, by decide,
      by decide, by decide, by decide⟩

/-- Witness for C7: the configured state is not prerolled, and applying the
theorem at it yields the scenario facts and a first-submission preroll count
of 1. -/
theorem c7_preroll_start_witness :
    (gst_decklink2_output_schedule_video_internal okEnv 0 c7State).2.n_prerolled = 1 ∧
    (iterate_schedule_stream okEnv c7Audio 7 c7State).playback_running = true := by
  have h := c7_preroll_start okEnv 0 c7State rfl rfl rfl rfl rfl (by decide)
  exact ⟨by rw [h.1.2.1]; decide, h.2.2.2.1⟩

end DeckLink2
